import Mathlib

/-!
Verification development for the olympian-birthplace pipeline.

Shallow embedding of the Python sources `filter-by-olympics.py`,
`filter-winter.py` and `olympians-by-state.py`:
* the rate-limited fetcher `_fetch` (module-level `_current_delay`),
* the season lookup-index build from `results.csv` rows,
* the output cache `build_output_cache` over prior-run output files,
* the classifier `classify_athletes` (index / cache / scrape tiers),
* the birth-state regex `_BORN_RE` and `born_state` / `parse_born`,
* the page/search scrapers `games_from_page` / `search_and_find_season`,
* the pure core of `write_season_output`.

Network fetches are modelled by an oracle `String → Option String`
(url ↦ body, `none` = fetch failure) and the HTML link extraction
(`LinkTextParser.feed` + `.links`) by a function
`String → List (String × String)` (html ↦ (href, text) pairs), both
passed as parameters; time.sleep is recorded as a list of slept
durations.  Delays are in whole seconds (all values reached by the
code — 4, 8, 16, 32, 60 — are exactly representable, so Nat is
faithful to the Python floats).
-/

namespace Olymp

/-! ### Rate-limited fetcher (`_fetch` in filter-by-olympics.py / filter-winter.py)

One call to `_fetch(url)` performs up to `MAX_RETRIES` HTTP attempts.
We model the sequence of HTTP outcomes the server would give to the
successive attempts as a script (a list consumed one element per
attempt; a missing element counts as a transport error, which the
code aborts on anyway). -/

-- pauses to avoid rate limiting (REQUEST_DELAY / MAX_DELAY / MAX_RETRIES)
def REQUEST_DELAY : Nat := 4

def MAX_DELAY : Nat := 60

def MAX_RETRIES : Nat := 6

inductive HttpResponse where
  | success (body : String)
  | rateLimited
  | httpError (code : Nat)
  | transportError
deriving DecidableEq

/-- The process-wide mutable state of the fetcher: the module-level
`_current_delay` variable. -/
structure FetchState where
  currentDelay : Nat
deriving DecidableEq

/-- The attempt loop of `_fetch`: `for attempt in range(1, MAX_RETRIES + 1)`.
`st` is the incoming module state (returned unchanged unless an attempt
succeeds), `delay` the call-local `delay` variable, the `Nat` argument the
number of loop iterations left.  Returns (body-or-None, final module state,
list of `time.sleep` durations in order). -/
def fetchAttempts (st : FetchState) :
    List HttpResponse → Nat → Nat → Option String × FetchState × List Nat
  | _, _, 0 => (none, st, [])
  | script, delay, n + 1 =>
    -- time.sleep(delay) happens before the attempt
    match script.headD .transportError with
    | .success body =>
      -- _current_delay = REQUEST_DELAY  (reset on success)
      (some body, ⟨REQUEST_DELAY⟩, [delay])
    | .rateLimited =>
      -- delay = min(delay * 2, MAX_DELAY); retry
      let d := min (delay * 2) MAX_DELAY
      let r := fetchAttempts st script.tail d n
      (r.1, r.2.1, delay :: r.2.2)
    | .httpError _ => (none, st, [delay])
    | .transportError => (none, st, [delay])

/-- One call of `_fetch`: reads the shared `_current_delay` into the local
`delay` and runs the attempt loop. -/
def fetchCall (script : List HttpResponse) (st : FetchState) :
    Option String × FetchState × List Nat :=
  fetchAttempts st script st.currentDelay MAX_RETRIES

/-! ### Generic string / list helpers used by the embedding -/

/-- Code-point lexicographic `≤` on char lists — the order Python uses to
compare `str` values. -/
def leCh : List Char → List Char → Bool
  | [], _ => true
  | _ :: _, [] => false
  | a :: as, b :: bs =>
    if a.toNat = b.toNat then leCh as bs else decide (a.toNat < b.toNat)

def leStr (a b : String) : Bool := leCh a.data b.data

/-- `sorted(l)` for a list of strings: stable insertion sort under the
code-point order, the order Python `sorted` uses on `str`. -/
def sortStrs (l : List String) : List String :=
  l.insertionSort (fun a b => leStr a b = true)

/-- Python `a in b` on strings (contiguous-substring test), over char lists:
prefix test. -/
def prefixCh : List Char → List Char → Bool
  | [], _ => true
  | _ :: _, [] => false
  | a :: as, b :: bs => a = b && prefixCh as bs

/-- Python `needle in hay` (contiguous substring, `"" in s` is true). -/
def substrCh (nd : List Char) : List Char → Bool
  | [] => prefixCh nd []
  | c :: t => prefixCh nd (c :: t) || substrCh nd t

def substrStr (needle hay : String) : Bool := substrCh needle.data hay.data

/-- A Python `$` anchor right after the consumed text: the rest of the string
is empty, or is a single final newline. -/
def endAnchor (rest : List Char) : Bool := rest = [] || rest = ['\n']

/-- Value of `int(s[:4])` for a string whose first four chars are digits. -/
def yearOf (s : String) : Nat :=
  (s.data.take 4).foldl (fun n c => n * 10 + (c.toNat - '0'.toNat)) 0

/-! ### The edition regular expressions

`_WINTER_RE = ^\d{4} Winter Olympics$` (and the Summer twin), applied with
`re.match` to the already-`strip()`ed Games cell, and the prefix pattern
`(\d{4} <season> Olympics)` used by `games_from_page` (`re.match`, not
anchored at the end).  `\d` is embedded as the ASCII digit test (the data
this pipeline matches is ASCII). -/

def matchFullSeason (season : String) (s : String) : Bool :=
  match s.data with
  | a :: b :: c :: d :: rest =>
    a.isDigit && b.isDigit && c.isDigit && d.isDigit &&
      (rest.take (" " ++ season ++ " Olympics").length
          = (" " ++ season ++ " Olympics").data
        && endAnchor (rest.drop (" " ++ season ++ " Olympics").length))
  | _ => false

/-- `re.match(rf"(\d{{4}} {season} Olympics)", text)`: if `text` starts with
four digits followed by `" <season> Olympics"`, return that prefix
(group 1). -/
def yearMatchPrefix (season : String) (text : String) : Option String :=
  match text.data with
  | a :: b :: c :: d :: rest =>
    if a.isDigit && b.isDigit && c.isDigit && d.isDigit &&
        prefixCh (" " ++ season ++ " Olympics").data rest then
      some (String.mk [a, b, c, d] ++ " " ++ season ++ " Olympics")
    else none
  | _ => none

/-- `re.match(r"^/athletes/(\d+)$", href)`: group 1 (the digits) on
success. -/
def matchAthleteHref (href : String) : Option String :=
  if prefixCh "/athletes/".data href.data then
    let rest := href.data.drop 10
    let core := if rest.getLast? = some '\n' then rest.dropLast else rest
    if core ≠ [] && core.all Char.isDigit && endAnchor (rest.drop core.length)
    then some (String.mk core) else none
  else none

/-- Python `s.strip()` (over the ASCII whitespace the data contains). -/
def trimStr (s : String) : String :=
  String.mk (((s.data.dropWhile Char.isWhitespace).reverse.dropWhile
    Char.isWhitespace).reverse)

/-! ### Rows: CSV `DictReader` rows and Python dicts, as association lists -/

/-- A CSV row / Python dict: insertion-ordered key → value pairs. -/
abbrev Row := List (String × String)

/-- `row.get(k, "")`. -/
def rowGet (row : Row) (k : String) : String :=
  match row.find? (fun p => p.1 == k) with
  | some p => p.2
  | none => ""

/-- `d[k] = v` on a Python dict: overwrite in place if the key exists,
else append. -/
def dictSet (d : Row) (k v : String) : Row :=
  if d.any (fun p => p.1 == k) then
    d.map (fun p => if p.1 == k then (k, v) else p)
  else d ++ [(k, v)]

/-! ### SeasonLookupIndex build (module level in both filter scripts)

`winter_lookup` / `summer_lookup` are `defaultdict(list)`; the guarded
`games not in winter_lookup[aid]` + `append` sequence only ever creates
non-empty entries, so a plain association list with `[]` as the default
read is a faithful model. -/

abbrev Lookup := List (String × List String)

def lookupGet (l : Lookup) (a : String) : List String :=
  match l.find? (fun p => p.1 == a) with
  | some p => p.2
  | none => []

/-- `winter_lookup[aid].append(games)` (creating the entry if absent). -/
def lookupAppend (l : Lookup) (a g : String) : Lookup :=
  if l.any (fun p => p.1 == a) then
    l.map (fun p => if p.1 == a then (p.1, p.2 ++ [g]) else p)
  else l ++ [(a, [g])]

/-- `seen_ids.add(aid)` (set semantics over a list). -/
def seenAdd (s : List String) (a : String) : List String :=
  if s.contains a then s else s ++ [a]

/-- `for aid in winter_lookup: winter_lookup[aid].sort()`. -/
def sortLookup (l : Lookup) : Lookup := l.map (fun p => (p.1, sortStrs p.2))

def MIN_YEAR : Nat := 1924

/-- The per-row body of the `results.csv` loop in filter-by-olympics.py:
skip rows with an empty (stripped) `athlete_id`, mark the id seen, and add
the Games cell to the Winter (resp. Summer) lookup when it fully matches
`^\d{4} Winter Olympics$` (resp. Summer), its year is ≥ `MIN_YEAR`, and it
is not already present. -/
def buildRowStep (acc : List String × Lookup × Lookup) (row : Row) :
    List String × Lookup × Lookup :=
  let aid := trimStr (rowGet row "athlete_id")
  let games := trimStr (rowGet row "Games")
  if aid = "" then acc
  else
    let seen := seenAdd acc.1 aid
    let wl :=
      if matchFullSeason "Winter" games && decide (MIN_YEAR ≤ yearOf games)
          && !(lookupGet acc.2.1 aid).contains games then
        lookupAppend acc.2.1 aid games
      else acc.2.1
    let sl :=
      if matchFullSeason "Summer" games && decide (MIN_YEAR ≤ yearOf games)
          && !(lookupGet acc.2.2 aid).contains games then
        lookupAppend acc.2.2 aid games
      else acc.2.2
    (seen, wl, sl)

/-- The combined-season index build of filter-by-olympics.py:
`(seen_ids, winter_lookup, summer_lookup)`, lists sorted at the end. -/
def buildLookups (rows : List Row) : List String × Lookup × Lookup :=
  let acc := rows.foldl buildRowStep ([], [], [])
  (acc.1, sortLookup acc.2.1, sortLookup acc.2.2)

/-- The per-row body of the `results.csv` loop in filter-winter.py: same as
the combined build's Winter half, but with no `MIN_YEAR` test. -/
def buildRowStepFW (acc : List String × Lookup) (row : Row) :
    List String × Lookup :=
  let aid := trimStr (rowGet row "athlete_id")
  let games := trimStr (rowGet row "Games")
  if aid = "" then acc
  else
    let seen := seenAdd acc.1 aid
    let wl :=
      if matchFullSeason "Winter" games
          && !(lookupGet acc.2 aid).contains games then
        lookupAppend acc.2 aid games
      else acc.2
    (seen, wl)

/-- The Winter-only index build of filter-winter.py. -/
def buildLookupFW (rows : List Row) : List String × Lookup :=
  let acc := rows.foldl buildRowStepFW ([], [])
  (acc.1, sortLookup acc.2)

/-! ### OutputCache (`build_output_cache` in filter-by-olympics.py)

Prior-run output files are modelled as a function from (directory label,
file name) to the optional list of rows the CSV holds (`none` = the file
does not exist).  Only `all-states.csv` and `us-born-elsewhere.csv` of the
two season directories are ever consulted. -/

def WINTER_DIR : String := "winter-output-data"

def SUMMER_DIR : String := "summer-output-data"

/-- Python `s.split(";")` over char lists. -/
def splitSemiCh : List Char → List (List Char)
  | [] => [[]]
  | c :: t =>
    if c = ';' then [] :: splitSemiCh t
    else match splitSemiCh t with
      | [] => [[c]]
      | p :: ps => (c :: p) :: ps

/-- `[g.strip() for g in games_str.split(";") if g.strip()]`. -/
def parseGames (games_str : String) : List String :=
  (((splitSemiCh games_str.data).map (fun cs => trimStr (String.mk cs))).filter
    (fun g => g ≠ ""))

/-- Per-athlete cache entry: `{"Winter": …, "Summer": …}` where `none`
models Python `None` (= unseen). -/
structure CacheEntry where
  winter : Option (List String)
  summer : Option (List String)
deriving DecidableEq

abbrev Cache := List (String × CacheEntry)

def cacheGet (c : Cache) (a : String) : Option CacheEntry :=
  (c.find? (fun p => p.1 == a)).map (fun p => p.2)

def cacheSet (c : Cache) (a : String) (e : CacheEntry) : Cache :=
  if c.any (fun p => p.1 == a) then
    c.map (fun p => if p.1 == a then (a, e) else p)
  else c ++ [(a, e)]

/-- Read `cache[aid][season]`. -/
def entryGet (e : CacheEntry) (season : String) : Option (List String) :=
  if season = "Winter" then e.winter
  else if season = "Summer" then e.summer
  else none

/-- Write `cache[aid][season] = v`. -/
def entrySet (e : CacheEntry) (season : String) (v : Option (List String)) :
    CacheEntry :=
  if season = "Winter" then { e with winter := v }
  else if season = "Summer" then { e with summer := v }
  else e

/-- `cache.get(aid, {}).get(season)` as used by `classify_athletes`. -/
def cacheSeason (c : Cache) (a season : String) : Option (List String) :=
  match cacheGet c a with
  | some e => entryGet e season
  | none => none

/-- Keep one copy of every element (the produced list is duplicate-free
and has the same members; the subsequent sort makes the representative
order irrelevant, as for a Python `set`). -/
def dedupIns (x : String) (l : List String) : List String :=
  if l.contains x then l else x :: l

def dedupL (l : List String) : List String := l.foldr dedupIns []

/-- `sorted(set(a) | set(b))`. -/
def sortedUnion (a b : List String) : List String :=
  sortStrs (dedupL (a ++ b))

/-- The nested `_add(aid, season, games)` of `build_output_cache`. -/
def cacheAdd (c : Cache) (aid season : String) (games : List String) : Cache :=
  let c1 := if (cacheGet c aid).isNone then cacheSet c aid ⟨none, none⟩ else c
  let e := (cacheGet c1 aid).getD ⟨none, none⟩
  match entryGet e season with
  | none => cacheSet c1 aid (entrySet e season (some (sortStrs games)))
  | some existing =>
    cacheSet c1 aid (entrySet e season (some (sortedUnion existing games)))

/-- Body of the per-row loop over one positive-results file: skip rows with
an empty stripped id, parse the semicolon-joined Games cell, `_add`. -/
def cacheRowStep (season : String) (c : Cache) (row : Row) : Cache :=
  let aid := trimStr (rowGet row "athlete_id")
  if aid = "" then c
  else cacheAdd c aid season (parseGames (trimStr (rowGet row "Games")))

/-- `for fname in ("all-states.csv", "us-born-elsewhere.csv")` body:
a missing file is skipped. -/
def cacheFileStep (fs : String → String → Option (List Row))
    (dir fname season : String) (c : Cache) : Cache :=
  match fs dir fname with
  | none => c
  | some rows => rows.foldl (cacheRowStep season) c

/-- `build_output_cache()`: scan the four positive-results files, in the
source's order (`no-match.csv` is deliberately never read). -/
def build_output_cache (fs : String → String → Option (List Row)) : Cache :=
  let c := cacheFileStep fs WINTER_DIR "all-states.csv" "Winter" []
  let c := cacheFileStep fs WINTER_DIR "us-born-elsewhere.csv" "Winter" c
  let c := cacheFileStep fs SUMMER_DIR "all-states.csv" "Summer" c
  cacheFileStep fs SUMMER_DIR "us-born-elsewhere.csv" "Summer" c

/-- A per-season cache value is either unseen (`none`) or resolved with a
non-empty edition list. -/
def entryOK (o : Option (List String)) : Prop :=
  o = none ∨ ∃ l, o = some l ∧ l ≠ []

/-- Every entry of the cache has only unseen or resolved-non-empty season
values. -/
def cacheWF (c : Cache) : Prop :=
  ∀ a e, cacheGet c a = some e → entryOK e.winter ∧ entryOK e.summer

/-! ### Live scraping (`games_from_page`, `search_and_find_season`)

The fetch oracle maps a URL to the body a successful `_fetch` would return
(`none` = `_fetch` returned `None`); a `Nat` counter of `_fetch` calls is
threaded through.  The link extractor stands for
`parser = LinkTextParser(); parser.feed(html); parser.links`. -/

def BASE_URL : String := "https://www.olympedia.org"

/-- The `for href, text in parser.links` loop of `games_from_page`:
collect distinct `(\d{4} <season> Olympics)` prefixes of texts of
`/editions/…` links, subject to `MIN_YEAR`. -/
def gamesLoopStep (season : String) (minYear : Nat) (games : List String)
    (link : String × String) : List String :=
  if prefixCh "/editions/".data link.1.data
      && substrStr (season ++ " Olympics") link.2 then
    match yearMatchPrefix season link.2 with
    | some g =>
      if decide (minYear ≤ yearOf g) && !games.contains g then games ++ [g]
      else games
    | none => games
  else games

/-- `games_from_page(athlete_id, season)` of filter-by-olympics.py. -/
def games_from_page (oracle : String → Option String)
    (extract : String → List (String × String)) (season : String)
    (athlete_id : String) (n : Nat) : Option (List String) × Nat :=
  let url := BASE_URL ++ "/athletes/" ++ athlete_id
  match oracle url with
  | none => (none, n + 1)
  | some html =>
    (some (sortStrs ((extract html).foldl (gamesLoopStep season MIN_YEAR) [])),
      n + 1)

/-- The Winter-games loop of filter-winter.py's `winter_games_from_page`:
no `MIN_YEAR` test. -/
def gamesLoopStepFW (games : List String) (link : String × String) :
    List String :=
  if prefixCh "/editions/".data link.1.data
      && substrStr "Winter Olympics" link.2 then
    match yearMatchPrefix "Winter" link.2 with
    | some g => if !games.contains g then games ++ [g] else games
    | none => games
  else games

/-- `winter_games_from_page(athlete_id)` of filter-winter.py. -/
def winter_games_from_page (oracle : String → Option String)
    (extract : String → List (String × String)) (athlete_id : String)
    (n : Nat) : Option (List String) × Nat :=
  let url := BASE_URL ++ "/athletes/" ++ athlete_id
  match oracle url with
  | none => (none, n + 1)
  | some html =>
    (some (sortStrs ((extract html).foldl gamesLoopStepFW [])), n + 1)

/-- Python whitespace split with no argument: split on whitespace runs,
dropping empty pieces (`used_name.split()`). -/
def splitTokens (s : String) : List String :=
  ((s.data.splitOnP Char.isWhitespace).map String.mk).filter (fun t => t ≠ "")

/-- `used_name.replace("•", " ")`. -/
def replaceBullet (s : String) : String :=
  String.mk (s.data.map (fun c => if c = '•' then ' ' else c))

/-- UTF-8 bytes of one char (standard encoding, as byte values). -/
def utf8Bytes (c : Char) : List Nat :=
  let n := c.toNat
  if n < 0x80 then [n]
  else if n < 0x800 then [0xC0 + n / 64, 0x80 + n % 64]
  else if n < 0x10000 then
    [0xE0 + n / 4096, 0x80 + n / 64 % 64, 0x80 + n % 64]
  else
    [0xF0 + n / 262144, 0x80 + n / 4096 % 64, 0x80 + n / 64 % 64,
      0x80 + n % 64]

def hexDigitCh (n : Nat) : Char :=
  if n < 10 then Char.ofNat ('0'.toNat + n) else Char.ofNat ('A'.toNat + n - 10)

/-- `urllib.parse.quote_plus` on one char: keep `[A-Za-z0-9_.~-]`, space
becomes `+`, anything else is %-encoded per UTF-8 byte (uppercase hex). -/
def quotePlusChar (c : Char) : List Char :=
  if c.isAlphanum || c = '_' || c = '.' || c = '-' || c = '~' then [c]
  else if c = ' ' then ['+']
  else (utf8Bytes c).foldr
    (fun b acc => '%' :: hexDigitCh (b / 16) :: hexDigitCh (b % 16) :: acc) []

def quotePlus (s : String) : String :=
  String.mk (s.data.foldr (fun c acc => quotePlusChar c ++ acc) [])

/-- The quick-search URL built from a display name. -/
def searchUrl (used_name : String) : String :=
  BASE_URL ++ "/athletes/quick_search?query="
    ++ quotePlus (String.intercalate " " (splitTokens (replaceBullet used_name)))

/-- The candidate-link loop of `search_and_find_season`: for each link
whose href matches `^/athletes/(\d+)$`, fetch that profile and return the
first non-`None` season result. -/
def searchLoop (oracle : String → Option String)
    (extract : String → List (String × String)) (season : String) :
    List (String × String) → Nat → Option (List String) × Nat
  | [], n => (none, n)
  | link :: rest, n =>
    match matchAthleteHref link.1 with
    | some idStr =>
      let r := games_from_page oracle extract season idStr n
      match r.1 with
      | some gs => (some gs, r.2)
      | none => searchLoop oracle extract season rest r.2
    | none => searchLoop oracle extract season rest n

/-- `search_and_find_season(used_name, season)` of filter-by-olympics.py. -/
def search_and_find_season (oracle : String → Option String)
    (extract : String → List (String × String)) (season : String)
    (used_name : String) (n : Nat) : Option (List String) × Nat :=
  let parts := splitTokens (replaceBullet used_name)
  if parts = [] then (none, n)
  else
    let url := BASE_URL ++ "/athletes/quick_search?query="
      ++ quotePlus (String.intercalate " " parts)
    match oracle url with
    | none => (none, n + 1)
    | some html => searchLoop oracle extract season (extract html) (n + 1)

/-- The candidate-link loop of filter-winter.py's `search_and_find_winter`. -/
def searchLoopFW (oracle : String → Option String)
    (extract : String → List (String × String)) :
    List (String × String) → Nat → Option (List String) × Nat
  | [], n => (none, n)
  | link :: rest, n =>
    match matchAthleteHref link.1 with
    | some idStr =>
      let r := winter_games_from_page oracle extract idStr n
      match r.1 with
      | some gs => (some gs, r.2)
      | none => searchLoopFW oracle extract rest r.2
    | none => searchLoopFW oracle extract rest n

/-- `search_and_find_winter(used_name)` of filter-winter.py. -/
def search_and_find_winter (oracle : String → Option String)
    (extract : String → List (String × String)) (used_name : String)
    (n : Nat) : Option (List String) × Nat :=
  let parts := splitTokens (replaceBullet used_name)
  if parts = [] then (none, n)
  else
    let url := BASE_URL ++ "/athletes/quick_search?query="
      ++ quotePlus (String.intercalate " " parts)
    match oracle url with
    | none => (none, n + 1)
    | some html => searchLoopFW oracle extract (extract html) (n + 1)

/-! ### Output-row construction (`make_out_fields`, `build_out_row`) -/

/-- `make_out_fields(fieldnames)`: rename `Roles` to `Games`, else ensure a
leading `Games` column. -/
def make_out_fields (fieldnames : List String) : List String :=
  if fieldnames.contains "Roles" then
    fieldnames.map (fun k => if k = "Roles" then "Games" else k)
  else if fieldnames.contains "Games" then fieldnames
  else "Games" :: fieldnames

/-- `build_out_row(row, games_str, out_fields)`. -/
def build_out_row (row : Row) (games_str : String) (out_fields : List String) :
    Row :=
  dictSet (out_fields.map (fun k => (k, rowGet row k))) "Games" games_str

/-- `str(row.get("athlete_id", "")).strip()`. -/
def aidOf (row : Row) : String := trimStr (rowGet row "athlete_id")

/-- `state_key_fn(row) if state_key_fn else ""`. -/
def keyOf (state_key : Option (Row → String)) (row : Row) : String :=
  match state_key with
  | some f => f row
  | none => ""

/-- `"; ".join(l)`. -/
def joinSemi : List String → String
  | [] => ""
  | [t] => t
  | t :: rest => t ++ "; " ++ joinSemi rest

/-! ### `classify_athletes` (filter-by-olympics.py, lines 280–346)

The first loop (index / cache tiers, collecting `needs_scrape`) and the
second loop (live scraping) are embedded as two list recursions; the
`_fetch`-call counter is threaded through the scrape loop. -/

/-- One iteration of the first loop of `classify_athletes`: returns the
rows appended to `season_rows` (zero or one) paired with whether the row
falls through to `needs_scrape`. -/
def classifyPhase1 (seen : List String) (lookup : Lookup) (cache : Cache)
    (season : String) (state_key : Option (Row → String))
    (out_fields : List String) :
    List Row → List (String × Row) × List Row
  | [] => ([], [])
  | row :: rest =>
    let acc := classifyPhase1 seen lookup cache season state_key out_fields rest
    let aid := aidOf row
    if seen.contains aid then
      let games := lookupGet lookup aid
      if games ≠ [] then
        ((keyOf state_key row, build_out_row row (joinSemi games) out_fields)
            :: acc.1,
          acc.2)
      else acc
    else
      match cacheSeason cache aid season with
      | some games =>
        if games ≠ [] then
          ((keyOf state_key row,
              build_out_row row (joinSemi (sortStrs games)) out_fields)
              :: acc.1,
            acc.2)
        else acc
      | none => (acc.1, row :: acc.2)

/-- `games_from_page(aid, season)` when the record has an id, else
`search_and_find_season(used_name, season)`. -/
def scrapeRow (oracle : String → Option String)
    (extract : String → List (String × String)) (season : String)
    (row : Row) (n : Nat) : Option (List String) × Nat :=
  let aid := aidOf row
  if aid ≠ "" then games_from_page oracle extract season aid n
  else search_and_find_season oracle extract season (rowGet row "Used name") n

/-- The scrape loop of `classify_athletes`: `None` → a no-match row,
non-empty list → a season row, empty list → nothing. -/
def classifyPhase2 (oracle : String → Option String)
    (extract : String → List (String × String)) (season : String)
    (state_key : Option (Row → String)) (out_fields : List String) :
    List Row → Nat → List (String × Row) × List Row × Nat
  | [], n => ([], [], n)
  | row :: rest, n =>
    let r := scrapeRow oracle extract season row n
    let acc :=
      classifyPhase2 oracle extract season state_key out_fields rest r.2
    match r.1 with
    | none =>
      (acc.1, build_out_row row "" out_fields :: acc.2.1, acc.2.2)
    | some games =>
      if games ≠ [] then
        ((keyOf state_key row,
            build_out_row row (joinSemi (sortStrs games)) out_fields)
            :: acc.1,
          acc.2)
      else acc

/-- `classify_athletes(athletes, out_fields, season, lookup, state_key_fn)`
with the module-level `seen_ids` / `_output_cache` and the fetch
environment passed explicitly.  Returns
`(season_rows, no_match_rows, fetch-call count)`. -/
def classify_athletes (seen : List String) (lookup : Lookup) (cache : Cache)
    (oracle : String → Option String)
    (extract : String → List (String × String)) (season : String)
    (state_key : Option (Row → String)) (out_fields : List String)
    (athletes : List Row) (n : Nat) :
    List (String × Row) × List Row × Nat :=
  let p1 := classifyPhase1 seen lookup cache season state_key out_fields
    athletes
  let p2 := classifyPhase2 oracle extract season state_key out_fields p1.2 n
  (p1.1 ++ p2.1, p2.2.1, p2.2.2)

/-! ### `classify_athletes` of filter-winter.py (lines 189–235): no cache
tier, Winter only. -/

def classifyPhase1FW (seen : List String) (lookup : Lookup)
    (state_key : Option (Row → String)) (out_fields : List String) :
    List Row → List (String × Row) × List Row
  | [] => ([], [])
  | row :: rest =>
    let acc := classifyPhase1FW seen lookup state_key out_fields rest
    let aid := aidOf row
    if seen.contains aid then
      let games := lookupGet lookup aid
      if games ≠ [] then
        ((keyOf state_key row, build_out_row row (joinSemi games) out_fields)
            :: acc.1,
          acc.2)
      else acc
    else (acc.1, row :: acc.2)

def scrapeRowFW (oracle : String → Option String)
    (extract : String → List (String × String)) (row : Row) (n : Nat) :
    Option (List String) × Nat :=
  let aid := aidOf row
  if aid ≠ "" then winter_games_from_page oracle extract aid n
  else search_and_find_winter oracle extract (rowGet row "Used name") n

def classifyPhase2FW (oracle : String → Option String)
    (extract : String → List (String × String))
    (state_key : Option (Row → String)) (out_fields : List String) :
    List Row → Nat → List (String × Row) × List Row × Nat
  | [], n => ([], [], n)
  | row :: rest, n =>
    let r := scrapeRowFW oracle extract row n
    let acc := classifyPhase2FW oracle extract state_key out_fields rest r.2
    match r.1 with
    | none =>
      (acc.1, build_out_row row "" out_fields :: acc.2.1, acc.2.2)
    | some games =>
      if games ≠ [] then
        ((keyOf state_key row,
            build_out_row row (joinSemi (sortStrs games)) out_fields)
            :: acc.1,
          acc.2)
      else acc

def classify_athletesFW (seen : List String) (lookup : Lookup)
    (oracle : String → Option String)
    (extract : String → List (String × String))
    (state_key : Option (Row → String)) (out_fields : List String)
    (athletes : List Row) (n : Nat) :
    List (String × Row) × List Row × Nat :=
  let p1 := classifyPhase1FW seen lookup state_key out_fields athletes
  let p2 := classifyPhase2FW oracle extract state_key out_fields p1.2 n
  (p1.1 ++ p2.1, p2.2.1, p2.2.2)

/-! ### The birth-state regex

`_BORN_RE = re.compile(r",\s*([^,]+?)\s*\(([A-Z]+)\)\s*$")`, used with
`.search`.  We embed Python's backtracking search directly: each
quantifier enumerates its alternatives in the engine's preference order
(greedy `\s*` / `[A-Z]+`: longest first; lazy `[^,]+?`: shortest first)
and the first overall success — at the leftmost start position — wins. -/

/-- Suffixes reachable by `\s*`, longest consumption first (greedy). -/
def wsAlts : List Char → List (List Char)
  | [] => [[]]
  | c :: rest =>
    if c.isWhitespace then wsAlts rest ++ [c :: rest] else [c :: rest]

/-- `(captured, rest)` pairs for `[^,]+?`, shortest capture first (lazy). -/
def notCommaAlts : List Char → List (List Char × List Char)
  | [] => []
  | c :: rest =>
    if c = ',' then []
    else ([c], rest) :: (notCommaAlts rest).map (fun p => (c :: p.1, p.2))

/-- `(captured, rest)` pairs for `[A-Z]+`, longest capture first (greedy). -/
def capsAlts : List Char → List (List Char × List Char)
  | [] => []
  | c :: rest =>
    if 'A' ≤ c && c ≤ 'Z' then
      (capsAlts rest).map (fun p => (c :: p.1, p.2)) ++ [([c], rest)]
    else []

/-- Match `\(([A-Z]+)\)\s*$` at the given suffix; returns group 2. -/
def bornParen : List Char → Option String
  | '(' :: rest =>
    (capsAlts rest).findSome? (fun p =>
      match p.2 with
      | ')' :: t => if t.all Char.isWhitespace then some (String.mk p.1)
        else none
      | _ => none)
  | _ => none

/-- Match `\s*\(([A-Z]+)\)\s*$`. -/
def bornAfterGroup (s : List Char) : Option String :=
  (wsAlts s).findSome? bornParen

/-- Match `([^,]+?)\s*\(([A-Z]+)\)\s*$`; returns (group 1, group 2). -/
def bornGroups (s : List Char) : Option (String × String) :=
  (notCommaAlts s).findSome? (fun p =>
    (bornAfterGroup p.2).map (fun g2 => (String.mk p.1, g2)))

/-- Match the whole pattern just after its leading `,`. -/
def bornAfterComma (s : List Char) : Option (String × String) :=
  (wsAlts s).findSome? bornGroups

/-- `_BORN_RE.search(born)`: leftmost `,` from which the rest of the
pattern matches. -/
def bornSearch : List Char → Option (String × String)
  | [] => none
  | c :: rest =>
    if c = ',' then
      match bornAfterComma rest with
      | some r => some r
      | none => bornSearch rest
    else bornSearch rest

/-- `born_state(row)` of filter-by-olympics.py (and filter-winter.py):
group 1 stripped, or `"Unknown"`. -/
def born_state (row : Row) : String :=
  match bornSearch (rowGet row "Born").data with
  | some p => trimStr p.1
  | none => "Unknown"

/-- `parse_born(born_str)` of olympians-by-state.py: `(state, country)`
both stripped, or `None`. -/
def parse_born (born_str : String) : Option (String × String) :=
  if born_str = "" then none
  else (bornSearch born_str.data).map (fun p => (trimStr p.1, trimStr p.2))

/-! ### `write_season_output` (filter-by-olympics.py, lines 386–445)

The pure core: grouping `states_rows` by key, the per-state count table,
the per-state detail tables, the `all-states` concatenation, the
`us-born-elsewhere` table and the `no-match` table.  The same
computations appear at module level in filter-winter.py (lines 276–327).
`write_csv` restricts each row to the written field list
(`DictWriter(..., extrasaction="ignore")`, `restval ""`), which we model
with `projectRow`. -/

/-- What a row looks like after being written by `write_csv` and read back
by `DictReader`. -/
def projectRow (fields : List String) (row : Row) : Row :=
  fields.map (fun k => (k, rowGet row k))

/-- `state_season[key].append(row)` grouping (`defaultdict(list)`). -/
def groupAppend (g : List (String × List Row)) (k : String) (row : Row) :
    List (String × List Row) :=
  if g.any (fun p => p.1 == k) then
    g.map (fun p => if p.1 == k then (p.1, p.2 ++ [row]) else p)
  else g ++ [(k, [row])]

def groupGet (g : List (String × List Row)) (k : String) : List Row :=
  match g.find? (fun p => p.1 == k) with
  | some p => p.2
  | none => []

def buildGroups (rows : List (String × Row)) : List (String × List Row) :=
  rows.foldl (fun g p => groupAppend g p.1 p.2) []

/-- All output tables of one season, as pure data. -/
structure SeasonOutput where
  countRows : List (String × Nat)
  byState : List (String × List Row)
  allSeason : List Row
  elsewhereOut : List Row
  noMatch : List Row
deriving DecidableEq

def write_season_output (states_list : List String)
    (states_rows : List (String × Row)) (elsewhere_rows : List (String × Row))
    (no_match_all : List Row) : SeasonOutput :=
  let g := buildGroups states_rows
  let sorted_states := sortStrs states_list
  { countRows :=
      (sorted_states.map (fun s => (s, (groupGet g s).length))).filter
        (fun p => decide (0 < p.2))
  , byState :=
      (sorted_states.map (fun s => (s, groupGet g s))).filter
        (fun p => p.2 ≠ [])
  , allSeason := (sorted_states.map (fun s => groupGet g s)).flatten
  , elsewhereOut := elsewhere_rows.map (fun p => p.2)
  , noMatch := no_match_all }

/-! ### Derived per-row views of the classifier

`classifyPhase1/2` process the athlete list one row at a time, with a
per-row contribution that does not depend on the accumulated output; these
derived functions name the per-row contributions, and the lemmas below
prove the loops equal to their `flatMap`/`filter` form. -/

/-- The `season_rows` contribution (zero or one rows) of one athlete in the
first loop of `classify_athletes`. -/
def phase1Row (seen : List String) (lookup : Lookup) (cache : Cache)
    (season : String) (state_key : Option (Row → String))
    (out_fields : List String) (row : Row) : List (String × Row) :=
  let aid := aidOf row
  if seen.contains aid then
    let games := lookupGet lookup aid
    if games ≠ [] then
      [(keyOf state_key row, build_out_row row (joinSemi games) out_fields)]
    else []
  else
    match cacheSeason cache aid season with
    | some games =>
      if games ≠ [] then
        [(keyOf state_key row,
            build_out_row row (joinSemi (sortStrs games)) out_fields)]
      else []
    | none => []

/-- Whether one athlete falls through to `needs_scrape`. -/
def needsScrape (seen : List String) (cache : Cache) (season : String)
    (row : Row) : Bool :=
  !seen.contains (aidOf row) && (cacheSeason cache (aidOf row) season).isNone

def phase1RowFW (seen : List String) (lookup : Lookup)
    (state_key : Option (Row → String)) (out_fields : List String)
    (row : Row) : List (String × Row) :=
  let aid := aidOf row
  if seen.contains aid then
    let games := lookupGet lookup aid
    if games ≠ [] then
      [(keyOf state_key row, build_out_row row (joinSemi games) out_fields)]
    else []
  else []

def needsScrapeFW (seen : List String) (row : Row) : Bool :=
  !seen.contains (aidOf row)

/-- Scrape result of one athlete (independent of the fetch counter). -/
def scrapeRes (oracle : String → Option String)
    (extract : String → List (String × String)) (season : String)
    (row : Row) : Option (List String) :=
  (scrapeRow oracle extract season row 0).1

/-- Number of `_fetch` calls one athlete's scrape performs. -/
def scrapeCost (oracle : String → Option String)
    (extract : String → List (String × String)) (season : String)
    (row : Row) : Nat :=
  (scrapeRow oracle extract season row 0).2

/-- The `season_rows` contribution of one scraped athlete. -/
def phase2RowS (oracle : String → Option String)
    (extract : String → List (String × String)) (season : String)
    (state_key : Option (Row → String)) (out_fields : List String)
    (row : Row) : List (String × Row) :=
  match scrapeRes oracle extract season row with
  | none => []
  | some games =>
    if games ≠ [] then
      [(keyOf state_key row,
          build_out_row row (joinSemi (sortStrs games)) out_fields)]
    else []

/-- The `no_match_rows` contribution of one scraped athlete. -/
def phase2RowN (oracle : String → Option String)
    (extract : String → List (String × String)) (season : String)
    (out_fields : List String) (row : Row) : List Row :=
  match scrapeRes oracle extract season row with
  | none => [build_out_row row "" out_fields]
  | some _ => []

def scrapeResFW (oracle : String → Option String)
    (extract : String → List (String × String)) (row : Row) :
    Option (List String) :=
  (scrapeRowFW oracle extract row 0).1

def scrapeCostFW (oracle : String → Option String)
    (extract : String → List (String × String)) (row : Row) : Nat :=
  (scrapeRowFW oracle extract row 0).2

def phase2RowSFW (oracle : String → Option String)
    (extract : String → List (String × String))
    (state_key : Option (Row → String)) (out_fields : List String)
    (row : Row) : List (String × Row) :=
  match scrapeResFW oracle extract row with
  | none => []
  | some games =>
    if games ≠ [] then
      [(keyOf state_key row,
          build_out_row row (joinSemi (sortStrs games)) out_fields)]
    else []

def phase2RowNFW (oracle : String → Option String)
    (extract : String → List (String × String)) (out_fields : List String)
    (row : Row) : List Row :=
  match scrapeResFW oracle extract row with
  | none => [build_out_row row "" out_fields]
  | some _ => []

/-- The three-row results fixture of the edition-filtering claim:
`"1920 Winter Olympics"`, `"1924 Winter Olympics"`,
`"1924 Winter Youth Olympics"`, all under one athlete id. -/
def c2Rows (aid : String) : List Row :=
  [[("athlete_id", aid), ("Games", "1920 Winter Olympics")],
   [("athlete_id", aid), ("Games", "1924 Winter Olympics")],
   [("athlete_id", aid), ("Games", "1924 Winter Youth Olympics")]]

/-- Total contribution of one athlete row to `season_rows` across both
loops of `classify_athletes` (at most one row: the first-loop tiers and the
scrape tier are mutually exclusive). -/
def rowTotal (seen : List String) (lookup : Lookup) (cache : Cache)
    (oracle : String → Option String)
    (extract : String → List (String × String)) (season : String)
    (state_key : Option (Row → String)) (out_fields : List String)
    (row : Row) : List (String × Row) :=
  phase1Row seen lookup cache season state_key out_fields row
    ++ (if needsScrape seen cache season row then
      phase2RowS oracle extract season state_key out_fields row else [])

/-- The prior-output state after a first Winter run: its `all-states.csv`
and `us-born-elsewhere.csv` as written by `write_csv`; nothing else on
disk. -/
def runFS (winterAll winterElse : List Row) :
    String → String → Option (List Row) := fun dir fname =>
  if dir = WINTER_DIR ∧ fname = "all-states.csv" then some winterAll
  else if dir = WINTER_DIR ∧ fname = "us-born-elsewhere.csv" then
    some winterElse
  else none

/-- A games token that survives the semicolon join/split round trip
unchanged: non-empty, free of `';'`, and without leading or trailing
whitespace. -/
def tokOK (t : String) : Prop :=
  t.data ≠ [] ∧ (∀ c ∈ t.data, c ≠ ';')
    ∧ (∀ c, t.data.head? = some c → c.isWhitespace = false)
    ∧ (∀ c, t.data.getLast? = some c → c.isWhitespace = false)

/-! ### Concrete fixtures used to instantiate the general theorems -/

/-- Fetch oracle for the idempotence fixtures: only athlete 9's profile
page exists. -/
def oracleC7 : String → Option String := fun u =>
  if u = BASE_URL ++ "/athletes/9" then some "p9" else none

/-- Athlete 9's profile holds one 1924 Winter edition link. -/
def extractC7 : String → List (String × String) := fun h =>
  if h = "p9" then [("/editions/2", "1924 Winter Olympics")] else []

/-- A Montana-born athlete that must be scraped (id 9, not in the
known-results index). -/
def rowScrapedC7 : Row :=
  [("athlete_id", "9"), ("Born", "in Helena, Montana (USA)")]

/-- A Montana-born athlete resolved from the known-results index (id 5). -/
def rowKnownC7 : Row :=
  [("athlete_id", "5"), ("Born", "in Helena, Montana (USA)")]

/-- First run of the Winter states-category resolution on the two fixture
athletes, with an empty output cache. -/
def run1C7 : List (String × Row) × List Row × Nat :=
  classify_athletes ["5"] [("5", ["1928 Winter Olympics"])] [] oracleC7
    extractC7 "Winter" (some born_state) ["athlete_id", "Games", "Born"]
    [rowScrapedC7, rowKnownC7] 0

/-- The Winter output tables the first run writes. -/
def out1C7 : SeasonOutput :=
  write_season_output ["Montana"] run1C7.1 [] run1C7.2.1

/-- Second run: same inputs, output cache seeded from the first run's
matched output files. -/
def run2C7 : List (String × Row) × List Row × Nat :=
  classify_athletes ["5"] [("5", ["1928 Winter Olympics"])]
    (build_output_cache (runFS
      (out1C7.allSeason.map (projectRow ["athlete_id", "Games", "Born"]))
      (out1C7.elsewhereOut.map
        (projectRow (make_out_fields ["athlete_id", "Games", "Born"])))))
    oracleC7 extractC7 "Winter" (some born_state)
    ["athlete_id", "Games", "Born"] [rowScrapedC7, rowKnownC7] 0

/-- The Winter output tables the second run writes. -/
def out2C7 : SeasonOutput :=
  write_season_output ["Montana"] run2C7.1 [] run2C7.2.1

/-- A prior-output state holding only a Winter `no-match.csv`. -/
def fsNoMatchOnly : String → String → Option (List Row) := fun dir fname =>
  if dir = WINTER_DIR ∧ fname = "no-match.csv" then some [[("athlete_id", "9")]]
  else none

/-- No prior-output files at all. -/
def fsEmpty : String → String → Option (List Row) := fun _ _ => none

/-- One prior Winter matched table with a non-empty Games value. -/
def fsCacheDemo : String → String → Option (List Row) := fun dir fname =>
  if dir = WINTER_DIR ∧ fname = "all-states.csv" then
    some [[("athlete_id", "7"), ("Games", "2022 Winter Olympics")]]
  else none

/-- One prior Winter matched table whose single row has an empty Games
value. -/
def fsEmptyGames : String → String → Option (List Row) := fun dir fname =>
  if dir = WINTER_DIR ∧ fname = "all-states.csv" then
    some [[("athlete_id", "7"), ("Games", "")]]
  else none

/-- Search oracle: the quick-search page for "Jo Dam" and the profile page
of athlete 7. -/
def oracleC9 : String → Option String := fun u =>
  if u = searchUrl "Jo Dam" then some "searchpage"
  else if u = BASE_URL ++ "/athletes/7" then some "profile7"
  else none

/-- Link extraction for the two fixture pages: the search page holds one
non-profile link and one profile link; the profile page holds one Winter
edition link. -/
def extractC9 : String → List (String × String) := fun h =>
  if h = "searchpage" then
    [("/athletes/7/results", "bad"), ("/athletes/7", "Jo Dam")]
  else if h = "profile7" then [("/editions/1", "2022 Winter Olympics")]
  else []

/-! ### The two-category Winter run of filter-by-olympics.py

`classify_athletes` is called once on the all-states athletes (with
`state_key_fn=born_state`) and once on the us-born-elsewhere athletes
(with `state_key_fn=None`), both with the same `out_fields`; then
`write_season_output` writes the Winter tables, projecting the elsewhere
table on `make_out_fields(elsewhere_fields)`. -/

/-- `season_rows` of one classification category of a Winter run. -/
def seasonRows (seen : List String) (lookup : Lookup) (cache : Cache)
    (oracle : String → Option String)
    (extract : String → List (String × String))
    (sk : Option (Row → String)) (outF : List String) (ath : List Row) :
    List (String × Row) :=
  (classify_athletes seen lookup cache oracle extract "Winter" sk outF
    ath 0).1

/-- `no_match_rows` of one classification category of a Winter run. -/
def noMatchRows (seen : List String) (lookup : Lookup) (cache : Cache)
    (oracle : String → Option String)
    (extract : String → List (String × String))
    (sk : Option (Row → String)) (outF : List String) (ath : List Row) :
    List Row :=
  (classify_athletes seen lookup cache oracle extract "Winter" sk outF
    ath 0).2.1

/-- The Winter output tables of one run of filter-by-olympics.py over the
all-states athletes `athS` and the us-born-elsewhere athletes `athE`. -/
def winterOut (seen : List String) (lookup : Lookup) (cache : Cache)
    (oracle : String → Option String)
    (extract : String → List (String × String)) (outF : List String)
    (states_list : List String) (athS athE : List Row) : SeasonOutput :=
  write_season_output states_list
    (seasonRows seen lookup cache oracle extract (some born_state) outF athS)
    (seasonRows seen lookup cache oracle extract none outF athE)
    (noMatchRows seen lookup cache oracle extract (some born_state) outF athS
      ++ noMatchRows seen lookup cache oracle extract none outF athE)

/-- The output cache a second run builds from the Winter tables a first
run (with an empty cache) wrote: `all-states.csv` carries the fields
`outF`, `us-born-elsewhere.csv` the fields `eOutF`
(= `make_out_fields(elsewhere_fields)`). -/
def winterCache2 (seen : List String) (lookup : Lookup)
    (oracle : String → Option String)
    (extract : String → List (String × String)) (outF eOutF : List String)
    (states_list : List String) (athS athE : List Row) : Cache :=
  build_output_cache (runFS
    ((winterOut seen lookup [] oracle extract outF states_list athS
        athE).allSeason.map (projectRow outF))
    ((winterOut seen lookup [] oracle extract outF states_list athS
        athE).elsewhereOut.map (projectRow eOutF)))

/-! ### Decomposition lemmas for the classifier loops -/

theorem classifyPhase1_eq (seen : List String) (lookup : Lookup)
    (cache : Cache) (season : String) (state_key : Option (Row → String))
    (out_fields : List String) (l : List Row) :
    classifyPhase1 seen lookup cache season state_key out_fields l
      = (l.flatMap (phase1Row seen lookup cache season state_key out_fields),
          l.filter (needsScrape seen cache season)) := by
  induction l with
  | nil => rfl
  | cons row rest ih =>
    by_cases hs : aidOf row ∈ seen
    · by_cases hg : lookupGet lookup (aidOf row) = [] <;>
        simp [classifyPhase1, ih, phase1Row, needsScrape, hs, hg]
    · rcases hc : cacheSeason cache (aidOf row) season with _ | gs
      · simp [classifyPhase1, ih, phase1Row, needsScrape, hs, hc]
      · by_cases hg : gs = [] <;>
          simp [classifyPhase1, ih, phase1Row, needsScrape, hs, hc, hg]

theorem games_from_page_shift (oracle : String → Option String)
    (extract : String → List (String × String)) (season id : String)
    (n : Nat) :
    games_from_page oracle extract season id n
      = ((games_from_page oracle extract season id 0).1, n + 1) := by
  unfold games_from_page
  rcases h : oracle (BASE_URL ++ "/athletes/" ++ id) with _ | html <;> simp [h]

theorem searchLoop_shift (oracle : String → Option String)
    (extract : String → List (String × String)) (season : String)
    (links : List (String × String)) (n : Nat) :
    searchLoop oracle extract season links n
      = ((searchLoop oracle extract season links 0).1,
          n + (searchLoop oracle extract season links 0).2) := by
  induction links generalizing n with
  | nil => rfl
  | cons link rest ih =>
    rcases hm : matchAthleteHref link.1 with _ | idStr
    · simp only [searchLoop, hm]
      exact ih n
    · simp only [searchLoop, hm]
      rw [games_from_page_shift oracle extract season idStr n]
      conv_rhs =>
        rw [games_from_page_shift oracle extract season idStr 0]
      rcases hr : (games_from_page oracle extract season idStr 0).1
        with _ | gs
      · simp only [hr]
        rw [ih (n + 1)]
        conv_rhs => rw [ih (0 + 1)]
        simp [Prod.ext_iff, Nat.add_assoc]
      · simp [hr]

theorem search_shift (oracle : String → Option String)
    (extract : String → List (String × String)) (season name : String)
    (n : Nat) :
    search_and_find_season oracle extract season name n
      = ((search_and_find_season oracle extract season name 0).1,
          n + (search_and_find_season oracle extract season name 0).2) := by
  by_cases hp : splitTokens (replaceBullet name) = []
  · simp [search_and_find_season, hp]
  · simp only [search_and_find_season, hp, if_neg, ite_false]
    rcases ho : oracle (BASE_URL ++ "/athletes/quick_search?query="
        ++ quotePlus (String.intercalate " " (splitTokens (replaceBullet name))))
      with _ | html
    · simp only [ho]
    · simp only [ho]
      rw [searchLoop_shift oracle extract season (extract html) (n + 1)]
      conv_rhs =>
        rw [searchLoop_shift oracle extract season (extract html) (0 + 1)]
      simp [Prod.ext_iff, Nat.add_assoc]

theorem scrapeRow_shift (oracle : String → Option String)
    (extract : String → List (String × String)) (season : String)
    (row : Row) (n : Nat) :
    scrapeRow oracle extract season row n
      = (scrapeRes oracle extract season row,
          n + scrapeCost oracle extract season row) := by
  unfold scrapeRes scrapeCost scrapeRow
  by_cases ha : aidOf row = ""
  · simp only [ha, ne_eq, not_true_eq_false, ite_false]
    rw [search_shift oracle extract season (rowGet row "Used name") n]
  · simp only [ha, ne_eq, not_false_eq_true, ite_true]
    rw [games_from_page_shift oracle extract season (aidOf row) n]
    have h2 : (games_from_page oracle extract season (aidOf row) 0).2 = 1 := by
      rw [games_from_page_shift oracle extract season (aidOf row) 0]
    rw [h2]

theorem classifyPhase2_eq (oracle : String → Option String)
    (extract : String → List (String × String)) (season : String)
    (state_key : Option (Row → String)) (out_fields : List String)
    (l : List Row) (n : Nat) :
    classifyPhase2 oracle extract season state_key out_fields l n
      = (l.flatMap (phase2RowS oracle extract season state_key out_fields),
          l.flatMap (phase2RowN oracle extract season out_fields),
          n + (l.map (scrapeCost oracle extract season)).sum) := by
  induction l generalizing n with
  | nil => rfl
  | cons row rest ih =>
    rcases hr : scrapeRes oracle extract season row with _ | gs
    · simp only [classifyPhase2, scrapeRow_shift, ih, hr, List.flatMap_cons,
        List.map_cons, List.sum_cons, phase2RowS, phase2RowN]
      simp [Prod.ext_iff, Nat.add_assoc]
    · by_cases hg : gs = []
      · simp only [classifyPhase2, scrapeRow_shift, ih, hr, hg,
          List.flatMap_cons, List.map_cons, List.sum_cons, phase2RowS,
          phase2RowN]
        simp [Prod.ext_iff, Nat.add_assoc]
      · simp only [classifyPhase2, scrapeRow_shift, ih, hr, hg,
          List.flatMap_cons, List.map_cons, List.sum_cons, phase2RowS,
          phase2RowN]
        simp [hg, Prod.ext_iff, Nat.add_assoc]

theorem classify_athletes_eq (seen : List String) (lookup : Lookup)
    (cache : Cache) (oracle : String → Option String)
    (extract : String → List (String × String)) (season : String)
    (state_key : Option (Row → String)) (out_fields : List String)
    (athletes : List Row) (n : Nat) :
    classify_athletes seen lookup cache oracle extract season state_key
        out_fields athletes n
      = ((athletes.flatMap
            (phase1Row seen lookup cache season state_key out_fields))
          ++ ((athletes.filter (needsScrape seen cache season)).flatMap
            (phase2RowS oracle extract season state_key out_fields)),
          (athletes.filter (needsScrape seen cache season)).flatMap
            (phase2RowN oracle extract season out_fields),
          n + ((athletes.filter (needsScrape seen cache season)).map
            (scrapeCost oracle extract season)).sum) := by
  simp only [classify_athletes, classifyPhase1_eq, classifyPhase2_eq]

theorem classifyPhase1FW_eq (seen : List String) (lookup : Lookup)
    (state_key : Option (Row → String)) (out_fields : List String)
    (l : List Row) :
    classifyPhase1FW seen lookup state_key out_fields l
      = (l.flatMap (phase1RowFW seen lookup state_key out_fields),
          l.filter (needsScrapeFW seen)) := by
  induction l with
  | nil => rfl
  | cons row rest ih =>
    by_cases hs : aidOf row ∈ seen
    · by_cases hg : lookupGet lookup (aidOf row) = [] <;>
        simp [classifyPhase1FW, ih, phase1RowFW, needsScrapeFW, hs, hg]
    · simp [classifyPhase1FW, ih, phase1RowFW, needsScrapeFW, hs]

theorem winter_games_from_page_shift (oracle : String → Option String)
    (extract : String → List (String × String)) (id : String) (n : Nat) :
    winter_games_from_page oracle extract id n
      = ((winter_games_from_page oracle extract id 0).1, n + 1) := by
  unfold winter_games_from_page
  rcases h : oracle (BASE_URL ++ "/athletes/" ++ id) with _ | html <;> simp [h]

theorem searchLoopFW_shift (oracle : String → Option String)
    (extract : String → List (String × String))
    (links : List (String × String)) (n : Nat) :
    searchLoopFW oracle extract links n
      = ((searchLoopFW oracle extract links 0).1,
          n + (searchLoopFW oracle extract links 0).2) := by
  induction links generalizing n with
  | nil => rfl
  | cons link rest ih =>
    rcases hm : matchAthleteHref link.1 with _ | idStr
    · simp only [searchLoopFW, hm]
      exact ih n
    · simp only [searchLoopFW, hm]
      rw [winter_games_from_page_shift oracle extract idStr n]
      conv_rhs =>
        rw [winter_games_from_page_shift oracle extract idStr 0]
      rcases hr : (winter_games_from_page oracle extract idStr 0).1
        with _ | gs
      · simp only [hr]
        rw [ih (n + 1)]
        conv_rhs => rw [ih (0 + 1)]
        simp [Prod.ext_iff, Nat.add_assoc]
      · simp [hr]

theorem searchFW_shift (oracle : String → Option String)
    (extract : String → List (String × String)) (name : String) (n : Nat) :
    search_and_find_winter oracle extract name n
      = ((search_and_find_winter oracle extract name 0).1,
          n + (search_and_find_winter oracle extract name 0).2) := by
  by_cases hp : splitTokens (replaceBullet name) = []
  · simp [search_and_find_winter, hp]
  · simp only [search_and_find_winter, hp, if_neg, ite_false]
    rcases ho : oracle (BASE_URL ++ "/athletes/quick_search?query="
        ++ quotePlus (String.intercalate " " (splitTokens (replaceBullet name))))
      with _ | html
    · simp only [ho]
    · simp only [ho]
      rw [searchLoopFW_shift oracle extract (extract html) (n + 1)]
      conv_rhs =>
        rw [searchLoopFW_shift oracle extract (extract html) (0 + 1)]
      simp [Prod.ext_iff, Nat.add_assoc]

theorem scrapeRowFW_shift (oracle : String → Option String)
    (extract : String → List (String × String)) (row : Row) (n : Nat) :
    scrapeRowFW oracle extract row n
      = (scrapeResFW oracle extract row,
          n + scrapeCostFW oracle extract row) := by
  unfold scrapeResFW scrapeCostFW scrapeRowFW
  by_cases ha : aidOf row = ""
  · simp only [ha, ne_eq, not_true_eq_false, ite_false]
    rw [searchFW_shift oracle extract (rowGet row "Used name") n]
  · simp only [ha, ne_eq, not_false_eq_true, ite_true]
    rw [winter_games_from_page_shift oracle extract (aidOf row) n]
    have h2 : (winter_games_from_page oracle extract (aidOf row) 0).2 = 1 := by
      rw [winter_games_from_page_shift oracle extract (aidOf row) 0]
    rw [h2]

theorem classifyPhase2FW_eq (oracle : String → Option String)
    (extract : String → List (String × String))
    (state_key : Option (Row → String)) (out_fields : List String)
    (l : List Row) (n : Nat) :
    classifyPhase2FW oracle extract state_key out_fields l n
      = (l.flatMap (phase2RowSFW oracle extract state_key out_fields),
          l.flatMap (phase2RowNFW oracle extract out_fields),
          n + (l.map (scrapeCostFW oracle extract)).sum) := by
  induction l generalizing n with
  | nil => rfl
  | cons row rest ih =>
    rcases hr : scrapeResFW oracle extract row with _ | gs
    · simp only [classifyPhase2FW, scrapeRowFW_shift, ih, hr,
        List.flatMap_cons, List.map_cons, List.sum_cons, phase2RowSFW,
        phase2RowNFW]
      simp [Prod.ext_iff, Nat.add_assoc]
    · by_cases hg : gs = []
      · simp only [classifyPhase2FW, scrapeRowFW_shift, ih, hr, hg,
          List.flatMap_cons, List.map_cons, List.sum_cons, phase2RowSFW,
          phase2RowNFW]
        simp [Prod.ext_iff, Nat.add_assoc]
      · simp only [classifyPhase2FW, scrapeRowFW_shift, ih, hr, hg,
          List.flatMap_cons, List.map_cons, List.sum_cons, phase2RowSFW,
          phase2RowNFW]
        simp [hg, Prod.ext_iff, Nat.add_assoc]

theorem classify_athletesFW_eq (seen : List String) (lookup : Lookup)
    (oracle : String → Option String)
    (extract : String → List (String × String))
    (state_key : Option (Row → String)) (out_fields : List String)
    (athletes : List Row) (n : Nat) :
    classify_athletesFW seen lookup oracle extract state_key out_fields
        athletes n
      = ((athletes.flatMap (phase1RowFW seen lookup state_key out_fields))
          ++ ((athletes.filter (needsScrapeFW seen)).flatMap
            (phase2RowSFW oracle extract state_key out_fields)),
          (athletes.filter (needsScrapeFW seen)).flatMap
            (phase2RowNFW oracle extract out_fields),
          n + ((athletes.filter (needsScrapeFW seen)).map
            (scrapeCostFW oracle extract)).sum) := by
  simp only [classify_athletesFW, classifyPhase1FW_eq, classifyPhase2FW_eq]

/-! ### Association-list lemmas -/

theorem find?_map_keyfun {β : Type} (f : String × β → String × β)
    (hf : ∀ p, (f p).1 = p.1) (l : List (String × β)) (s : String) :
    (l.map f).find? (fun p => p.1 == s) = (l.find? (fun p => p.1 == s)).map f := by
  induction l with
  | nil => rfl
  | cons p rest ih =>
    rcases hp : (p.1 == s) with _ | _
    · have hfp : ((f p).1 == s) = false := by rw [hf p]; exact hp
      simp only [List.map_cons, List.find?_cons, hp, hfp, ih]
    · have hfp : ((f p).1 == s) = true := by rw [hf p]; exact hp
      simp [List.find?_cons, hp, hfp]

theorem find?_append_singleton {β : Type} (l : List (String × β))
    (q : String × β) (s : String) :
    (l ++ [q]).find? (fun p => p.1 == s)
      = match l.find? (fun p => p.1 == s) with
        | some p => some p
        | none => if q.1 == s then some q else none := by
  induction l with
  | nil =>
    rcases hq : (q.1 == s) with _ | _ <;>
      simp [List.find?, hq]
  | cons p rest ih =>
    rcases hp : (p.1 == s) with _ | _ <;>
      simp only [List.cons_append, List.find?_cons, hp, ih]

theorem find?_eq_none_of_any_false {β : Type} (l : List (String × β))
    (s : String) (h : l.any (fun p => p.1 == s) = false) :
    l.find? (fun p => p.1 == s) = none := by
  rw [List.find?_eq_none]
  intro p hp
  have := List.any_eq_false.mp h p hp
  simpa using this

theorem cacheSet_keyfun (b : String) (e : CacheEntry) :
    ∀ p : String × CacheEntry,
      ((fun p => if p.1 == b then (b, e) else p) p).1 = p.1 := by
  intro p
  rcases hp : (p.1 == b) with _ | _
  · simp [hp]
  · simp [hp, (eq_of_beq hp).symm]

theorem cacheGet_cacheSet_self (c : Cache) (a : String) (e : CacheEntry) :
    cacheGet (cacheSet c a e) a = some e := by
  unfold cacheGet cacheSet
  rcases hany : c.any (fun p => p.1 == a) with _ | _
  · simp only [hany, Bool.false_eq_true, if_false]
    rw [find?_append_singleton]
    rw [find?_eq_none_of_any_false c a hany]
    simp
  · simp only [hany, if_true]
    rw [find?_map_keyfun _ (cacheSet_keyfun a e)]
    rcases hf : c.find? (fun p => p.1 == a) with _ | p
    · exfalso
      rcases List.any_eq_true.mp hany with ⟨p, hp, hpa⟩
      rw [List.find?_eq_none] at hf
      exact hf p hp hpa
    · have hpa := List.find?_some hf
      have hp1 : p.1 = a := by simpa using hpa
      rw [hf]
      simp [hp1]

theorem cacheGet_cacheSet_ne (c : Cache) (b : String) (e : CacheEntry)
    (a : String) (h : b ≠ a) :
    cacheGet (cacheSet c b e) a = cacheGet c a := by
  have hba : (b == a) = false := by simpa using h
  unfold cacheGet cacheSet
  by_cases hany : c.any (fun p => p.1 == b) = true
  · simp only [hany, if_true]
    rw [find?_map_keyfun _ (cacheSet_keyfun b e)]
    rcases hf : c.find? (fun p => p.1 == a) with _ | p
    · simp [hf]
    · have hpa := List.find?_some hf
      have hpb : ¬ p.1 = b := by
        have hp1 : p.1 = a := by simpa using hpa
        rw [hp1]
        exact h.symm
      rw [hf]
      simp [hpb]
  · simp only [hany, if_false, Bool.false_eq_true]
    rw [find?_append_singleton]
    rcases hf : c.find? (fun p => p.1 == a) with _ | p <;> simp [hf, hba]

theorem cacheGet_cacheAdd_ne (c : Cache) (aid season : String)
    (g : List String) (a : String) (h : aid ≠ a) :
    cacheGet (cacheAdd c aid season g) a = cacheGet c a := by
  have hc1 : ∀ e, cacheGet
      (cacheSet (if (cacheGet c aid).isNone then cacheSet c aid ⟨none, none⟩
        else c) aid e) a = cacheGet c a := by
    intro e
    rw [cacheGet_cacheSet_ne _ _ _ _ h]
    by_cases h0 : (cacheGet c aid).isNone
    · simp only [h0, if_true]
      exact cacheGet_cacheSet_ne _ _ _ _ h
    · simp only [h0, if_false, Bool.false_eq_true]
  simp only [cacheAdd]
  split
  · exact hc1 _
  · exact hc1 _

theorem cacheGet_rowsFold_ne (season : String) (rows : List Row) (c : Cache)
    (a : String)
    (h : ∀ r ∈ rows, trimStr (rowGet r "athlete_id") = ""
      ∨ trimStr (rowGet r "athlete_id") ≠ a) :
    cacheGet (rows.foldl (cacheRowStep season) c) a = cacheGet c a := by
  induction rows generalizing c with
  | nil => rfl
  | cons r rest ih =>
    simp only [List.foldl_cons]
    rw [ih _ (fun r' hr' => h r' (List.mem_cons_of_mem _ hr'))]
    rcases h r (List.mem_cons_self _ _) with h0 | hne
    · simp [cacheRowStep, h0]
    · unfold cacheRowStep
      by_cases hb : trimStr (rowGet r "athlete_id") = ""
      · simp [hb]
      · simp only [hb, if_false, Bool.false_eq_true, ite_false]
        exact cacheGet_cacheAdd_ne _ _ _ _ _ hne

theorem cacheGet_fileStep_ne (fs : String → String → Option (List Row))
    (dir fname season : String) (c : Cache) (a : String)
    (h : ∀ rows, fs dir fname = some rows → ∀ r ∈ rows,
      trimStr (rowGet r "athlete_id") = ""
        ∨ trimStr (rowGet r "athlete_id") ≠ a) :
    cacheGet (cacheFileStep fs dir fname season c) a = cacheGet c a := by
  unfold cacheFileStep
  rcases hf : fs dir fname with _ | rows
  · rfl
  · exact cacheGet_rowsFold_ne season rows c a (h rows hf)

/-! ### Cache well-formedness lemmas -/

theorem sortStrs_perm (l : List String) : (sortStrs l).Perm l :=
  List.perm_insertionSort _ l

theorem sortStrs_ne_nil (l : List String) (h : l ≠ []) : sortStrs l ≠ [] := by
  intro he
  exact h ((he ▸ sortStrs_perm l).symm.eq_nil)

theorem dedupL_ne_nil (x : String) (xs : List String) :
    dedupL (x :: xs) ≠ [] := by
  show dedupIns x (dedupL xs) ≠ []
  unfold dedupIns
  rcases h : (dedupL xs).contains x with _ | _
  · simp [h]
  · simp only [h, if_true]
    exact List.ne_nil_of_mem (by simpa using h)

theorem sortedUnion_ne_nil (a b : List String) (ha : a ≠ []) :
    sortedUnion a b ≠ [] := by
  unfold sortedUnion
  apply sortStrs_ne_nil
  cases a with
  | nil => exact absurd rfl ha
  | cons x xs => exact dedupL_ne_nil x (xs ++ b)

theorem entryGet_empty (season : String) :
    entryGet ⟨none, none⟩ season = none := by
  unfold entryGet
  split_ifs <;> rfl

theorem entryOK_entrySet (e : CacheEntry) (season : String)
    (v : Option (List String)) (hv : entryOK v)
    (he : entryOK e.winter ∧ entryOK e.summer) :
    entryOK (entrySet e season v).winter ∧ entryOK (entrySet e season v).summer := by
  unfold entrySet
  split_ifs <;> simp_all

theorem cacheWF_empty : cacheWF [] := by
  intro a e h
  simp [cacheGet] at h

theorem cacheWF_add (c : Cache) (aid season : String) (g : List String)
    (hg : g ≠ []) (hc : cacheWF c) : cacheWF (cacheAdd c aid season g) := by
  intro a e hae
  by_cases ha : aid = a
  · subst ha
    rcases h0 : cacheGet c aid with _ | e0
    · have hstep : cacheAdd c aid season g
          = cacheSet (cacheSet c aid ⟨none, none⟩) aid
            (entrySet ⟨none, none⟩ season (some (sortStrs g))) := by
        simp only [cacheAdd, h0, Option.isNone_none, if_true,
          cacheGet_cacheSet_self, Option.getD_some, entryGet_empty]
      rw [hstep, cacheGet_cacheSet_self] at hae
      cases hae
      exact entryOK_entrySet ⟨none, none⟩ season _
        (Or.inr ⟨sortStrs g, rfl, sortStrs_ne_nil g hg⟩) (by simp [entryOK])
    · have hnn : (cacheGet c aid).isNone = false := by simp [h0]
      rcases hs : entryGet e0 season with _ | ex
      · have hstep : cacheAdd c aid season g
            = cacheSet c aid (entrySet e0 season (some (sortStrs g))) := by
          simp only [cacheAdd, h0, Option.isNone_some, Bool.false_eq_true,
            if_false, Option.getD_some, hs]
        rw [hstep, cacheGet_cacheSet_self] at hae
        cases hae
        exact entryOK_entrySet e0 season _
          (Or.inr ⟨sortStrs g, rfl, sortStrs_ne_nil g hg⟩) (hc aid e0 h0)
      · have hex : ex ≠ [] := by
          have he0 := hc aid e0 h0
          unfold entryGet at hs
          split_ifs at hs
          · rcases he0.1 with h1 | ⟨l, hl, hlne⟩
            · rw [h1] at hs; cases hs
            · rw [hl] at hs; cases hs; exact hlne
          · rcases he0.2 with h1 | ⟨l, hl, hlne⟩
            · rw [h1] at hs; cases hs
            · rw [hl] at hs; cases hs; exact hlne
        have hstep : cacheAdd c aid season g
            = cacheSet c aid (entrySet e0 season (some (sortedUnion ex g))) := by
          simp only [cacheAdd, h0, Option.isNone_some, Bool.false_eq_true,
            if_false, Option.getD_some, hs]
        rw [hstep, cacheGet_cacheSet_self] at hae
        cases hae
        exact entryOK_entrySet e0 season _
          (Or.inr ⟨sortedUnion ex g, rfl, sortedUnion_ne_nil ex g hex⟩)
          (hc aid e0 h0)
  · rw [cacheGet_cacheAdd_ne c aid season g a ha] at hae
    exact hc a e hae

theorem cacheWF_rows (season : String) (rows : List Row) (c : Cache)
    (h : ∀ r ∈ rows, parseGames (trimStr (rowGet r "Games")) ≠ [])
    (hc : cacheWF c) : cacheWF (rows.foldl (cacheRowStep season) c) := by
  induction rows generalizing c with
  | nil => exact hc
  | cons r rest ih =>
    simp only [List.foldl_cons]
    refine ih _ (fun r' hr' => h r' (List.mem_cons_of_mem _ hr')) ?_
    unfold cacheRowStep
    by_cases hb : trimStr (rowGet r "athlete_id") = ""
    · simpa [hb] using hc
    · simp only [hb, if_false, Bool.false_eq_true, ite_false]
      exact cacheWF_add _ _ _ _ (h r (List.mem_cons_self _ _)) hc

theorem cacheWF_file (fs : String → String → Option (List Row))
    (dir fname season : String) (c : Cache)
    (h : ∀ rows, fs dir fname = some rows →
      ∀ r ∈ rows, parseGames (trimStr (rowGet r "Games")) ≠ [])
    (hc : cacheWF c) : cacheWF (cacheFileStep fs dir fname season c) := by
  unfold cacheFileStep
  rcases hf : fs dir fname with _ | rows
  · exact hc
  · exact cacheWF_rows season rows c (h rows hf) hc

/-! ### Grouping lemmas for `write_season_output` -/

theorem groupAppend_keyfun (k : String) (row : Row) :
    ∀ p : String × List Row,
      ((fun p => if p.1 == k then (p.1, p.2 ++ [row]) else p) p).1 = p.1 := by
  intro p
  by_cases h : (p.1 == k) = true <;> simp [h]

theorem groupGet_groupAppend_self (g : List (String × List Row)) (k : String)
    (row : Row) : groupGet (groupAppend g k row) k = groupGet g k ++ [row] := by
  unfold groupGet groupAppend
  rcases hany : g.any (fun p => p.1 == k) with _ | _
  · simp only [hany, Bool.false_eq_true, if_false]
    rw [find?_append_singleton]
    rw [find?_eq_none_of_any_false g k hany]
    simp
  · simp only [hany, if_true]
    rw [find?_map_keyfun _ (groupAppend_keyfun k row)]
    rcases hf : g.find? (fun p => p.1 == k) with _ | p
    · exfalso
      rcases List.any_eq_true.mp hany with ⟨p, hp, hpk⟩
      rw [List.find?_eq_none] at hf
      exact hf p hp hpk
    · have hpk := List.find?_some hf
      have hp1 : p.1 = k := by simpa using hpk
      rw [hf]
      simp [hp1]

theorem groupGet_groupAppend_ne (g : List (String × List Row)) (k : String)
    (row : Row) (s : String) (h : k ≠ s) :
    groupGet (groupAppend g k row) s = groupGet g s := by
  unfold groupGet groupAppend
  rcases hany : g.any (fun p => p.1 == k) with _ | _
  · simp only [hany, Bool.false_eq_true, if_false]
    rw [find?_append_singleton]
    rcases hf : g.find? (fun p => p.1 == s) with _ | p
    · simp [hf, (by simpa using h : (k == s) = false)]
    · simp [hf]
  · simp only [hany, if_true]
    rw [find?_map_keyfun _ (groupAppend_keyfun k row)]
    rcases hf : g.find? (fun p => p.1 == s) with _ | p
    · simp [hf]
    · have hps := List.find?_some hf
      have hpk : ¬ p.1 = k := by
        have hp1 : p.1 = s := by simpa using hps
        rw [hp1]
        exact fun he => h he.symm
      rw [hf]
      simp [hpk]

theorem groupGet_foldl (rows : List (String × Row))
    (g0 : List (String × List Row)) (s : String) :
    groupGet (rows.foldl (fun g p => groupAppend g p.1 p.2) g0) s
      = groupGet g0 s ++ (rows.filter (fun p => p.1 == s)).map (fun p => p.2) := by
  induction rows generalizing g0 with
  | nil => simp
  | cons p rest ih =>
    simp only [List.foldl_cons, ih, List.filter_cons]
    by_cases hp : p.1 = s
    · subst hp
      rw [groupGet_groupAppend_self]
      simp
    · rw [groupGet_groupAppend_ne _ _ _ _ hp]
      simp [(by simpa using hp : (p.1 == s) = false)]

theorem groupGet_buildGroups (rows : List (String × Row)) (s : String) :
    groupGet (buildGroups rows) s
      = (rows.filter (fun p => p.1 == s)).map (fun p => p.2) := by
  have := groupGet_foldl rows [] s
  simpa [buildGroups, groupGet] using this

theorem mem_sortStrs (a : String) (l : List String) :
    a ∈ sortStrs l ↔ a ∈ l :=
  (sortStrs_perm l).mem_iff

/-! ### The claims -/

/-- C1: the spec claims the 429 doubling is written to the process-wide
delay and is visible to subsequent sequential Fetch calls.  In the code the
doubling only affects the call-local `delay`; `_current_delay` is written
only on success (reset to the base).  Evaluating the embedded `_fetch` on
six straight 429 responses: the in-call sleeps do escalate
(4, 8, 16, 32, 60, 60 — doubled, capped at 60), the call fails, but the
shared `_current_delay` is still the base 4 s, and a subsequent call's
first sleep is 4 s rather than an escalated value. -/
theorem claim_C1_backoff_doubling_call_local :
    fetchCall (List.replicate 6 .rateLimited) ⟨REQUEST_DELAY⟩
      = (none, ⟨REQUEST_DELAY⟩, [4, 8, 16, 32, 60, 60])
    ∧ (fetchCall [.success "ok"]
        (fetchCall (List.replicate 6 .rateLimited) ⟨REQUEST_DELAY⟩).2.1).2.2
      = [REQUEST_DELAY] := by
  decide

/-- C2 counterexample: in the Winter-only build of filter-winter.py there
is no minimum-year test, so from the three fixture rows the index retains
both "1920 Winter Olympics" and "1924 Winter Olympics" — not only the 1924
edition as the claim states. -/
theorem claim_C2_counterexample :
    lookupGet (buildLookupFW (c2Rows "1")).2 "1"
      = ["1920 Winter Olympics", "1924 Winter Olympics"]
    ∧ ¬ lookupGet (buildLookupFW (c2Rows "1")).2 "1"
      = ["1924 Winter Olympics"] := by
  decide

/-- C2 amended: on the fixture rows ("1920 Winter Olympics",
"1924 Winter Olympics", "1924 Winter Youth Olympics" under one non-empty
id), the combined-season build of filter-by-olympics.py retains exactly
["1924 Winter Olympics"] (case-sensitive full match plus the
MIN_YEAR = 1924 test), while the Winter-only build of filter-winter.py —
which applies no minimum-year test — retains
["1920 Winter Olympics", "1924 Winter Olympics"].  The Youth edition is
excluded by both. -/
theorem claim_C2_edition_filtering (aid : String) (h0 : trimStr aid = aid)
    (h : aid ≠ "") :
    lookupGet (buildLookups (c2Rows aid)).2.1 aid = ["1924 Winter Olympics"]
    ∧ lookupGet (buildLookupFW (c2Rows aid)).2 aid
      = ["1920 Winter Olympics", "1924 Winter Olympics"] := by
  have e1 : trimStr "1920 Winter Olympics" = "1920 Winter Olympics" := by
    decide
  have e2 : trimStr "1924 Winter Olympics" = "1924 Winter Olympics" := by
    decide
  have e3 : trimStr "1924 Winter Youth Olympics"
      = "1924 Winter Youth Olympics" := by decide
  have w1 : matchFullSeason "Winter" "1920 Winter Olympics" = true := by decide
  have w2 : matchFullSeason "Winter" "1924 Winter Olympics" = true := by decide
  have w3 : matchFullSeason "Winter" "1924 Winter Youth Olympics" = false := by
    decide
  have s1 : matchFullSeason "Summer" "1920 Winter Olympics" = false := by
    decide
  have s2 : matchFullSeason "Summer" "1924 Winter Olympics" = false := by
    decide
  have s3 : matchFullSeason "Summer" "1924 Winter Youth Olympics" = false := by
    decide
  have y1 : yearOf "1920 Winter Olympics" = 1920 := by decide
  have y2 : yearOf "1924 Winter Olympics" = 1924 := by decide
  have d1 : ("1924 Winter Olympics" : String) ≠ "1920 Winter Olympics" := by
    decide
  have ls : leStr "1920 Winter Olympics" "1924 Winter Olympics" = true := by
    decide
  constructor
  · simp [buildLookups, c2Rows, buildRowStep, rowGet, h0, h, lookupGet,
      lookupAppend, seenAdd, sortLookup, sortStrs, List.insertionSort,
      List.orderedInsert, e1, e2, e3, w1, w2, w3, s1, s2, s3, y1, y2,
      MIN_YEAR, ls, d1]
  · simp [buildLookupFW, c2Rows, buildRowStepFW, rowGet, h0, h, lookupGet,
      lookupAppend, seenAdd, sortLookup, sortStrs, List.insertionSort,
      List.orderedInsert, e1, e2, e3, w1, w2, w3, y1, y2, ls, d1]

/-- Witness for the amended C2 at the concrete id "1". -/
theorem claim_C2_edition_filtering_witness :
    (trimStr "1" = "1" ∧ ("1" : String) ≠ "")
    ∧ (lookupGet (buildLookups (c2Rows "1")).2.1 "1" = ["1924 Winter Olympics"]
      ∧ lookupGet (buildLookupFW (c2Rows "1")).2 "1"
        = ["1920 Winter Olympics", "1924 Winter Olympics"]) :=
  ⟨⟨by decide, by decide⟩, claim_C2_edition_filtering "1" (by decide) (by decide)⟩

/-- C3: an athlete whose identifier is in the seen-set but whose index list
for the requested season is empty produces no season row, no no-match row
and no fetch: deleting it from the input leaves the entire classifier
output — season rows, no-match rows and the fetch-call counter — unchanged,
in both filter-by-olympics.py and filter-winter.py. -/
theorem claim_C3_known_empty_silent (seen : List String) (lookup : Lookup)
    (cache : Cache) (oracle : String → Option String)
    (extract : String → List (String × String)) (season : String)
    (state_key : Option (Row → String)) (out_fields : List String)
    (pre post : List Row) (row : Row) (n : Nat)
    (h1 : aidOf row ∈ seen) (h2 : lookupGet lookup (aidOf row) = []) :
    classify_athletes seen lookup cache oracle extract season state_key
        out_fields (pre ++ row :: post) n
      = classify_athletes seen lookup cache oracle extract season state_key
        out_fields (pre ++ post) n
    ∧ classify_athletesFW seen lookup oracle extract state_key out_fields
        (pre ++ row :: post) n
      = classify_athletesFW seen lookup oracle extract state_key out_fields
        (pre ++ post) n := by
  have hrow : phase1Row seen lookup cache season state_key out_fields row
      = [] := by
    simp [phase1Row, h1, h2]
  have hrowFW : phase1RowFW seen lookup state_key out_fields row = [] := by
    simp [phase1RowFW, h1, h2]
  have hns : needsScrape seen cache season row = false := by
    simp [needsScrape, h1]
  have hnsFW : needsScrapeFW seen row = false := by
    simp [needsScrapeFW, h1]
  constructor
  · rw [classify_athletes_eq, classify_athletes_eq]
    simp [List.flatMap_append, List.filter_append, List.filter_cons, hrow,
      hns]
  · rw [classify_athletesFW_eq, classify_athletesFW_eq]
    simp [List.flatMap_append, List.filter_append, List.filter_cons, hrowFW,
      hnsFW]

/-- Witness for C3: seen id "5" with an empty Winter lookup list. -/
theorem claim_C3_known_empty_silent_witness :
    (aidOf [("athlete_id", "5")] ∈ ["5"]
      ∧ lookupGet [] (aidOf [("athlete_id", "5")]) = [])
    ∧ (classify_athletes ["5"] [] [] (fun _ => none) (fun _ => []) "Winter"
          none [] ([] ++ [("athlete_id", "5")] :: []) 0
        = classify_athletes ["5"] [] [] (fun _ => none) (fun _ => []) "Winter"
          none [] ([] ++ []) 0
      ∧ classify_athletesFW ["5"] [] (fun _ => none) (fun _ => []) none []
          ([] ++ [("athlete_id", "5")] :: []) 0
        = classify_athletesFW ["5"] [] (fun _ => none) (fun _ => []) none []
          ([] ++ []) 0) :=
  ⟨⟨by decide, by decide⟩,
    claim_C3_known_empty_silent ["5"] [] [] (fun _ => none) (fun _ => [])
      "Winter" none [] [] [] [("athlete_id", "5")] 0 (by decide) (by decide)⟩

/-- C4: an athlete whose identifier is not in the seen-set but whose cache
entry for the requested season is resolved causes no fetch (the fetch-call
counter is the same as if the athlete were absent), and when the cached
list is non-empty its season row's Games value is
`"; ".join(sorted(games))` built from exactly the cached list. -/
theorem claim_C4_cached_no_fetch (seen : List String) (lookup : Lookup)
    (cache : Cache) (oracle : String → Option String)
    (extract : String → List (String × String)) (season : String)
    (state_key : Option (Row → String)) (out_fields : List String)
    (pre post : List Row) (row : Row) (n : Nat) (games : List String)
    (h1 : aidOf row ∉ seen)
    (h2 : cacheSeason cache (aidOf row) season = some games)
    (h3 : games ≠ []) :
    (classify_athletes seen lookup cache oracle extract season state_key
        out_fields (pre ++ row :: post) n).2.2
      = (classify_athletes seen lookup cache oracle extract season state_key
        out_fields (pre ++ post) n).2.2
    ∧ classify_athletes seen lookup cache oracle extract season state_key
        out_fields [row] n
      = ([(keyOf state_key row,
            build_out_row row (joinSemi (sortStrs games)) out_fields)],
          [], n) := by
  have hns : needsScrape seen cache season row = false := by
    simp [needsScrape, h2]
  constructor
  · rw [classify_athletes_eq, classify_athletes_eq]
    simp [List.filter_append, List.filter_cons, hns]
  · rw [classify_athletes_eq]
    simp [phase1Row, needsScrape, h1, h2, h3]

/-- Witness for C4: athlete "7" resolved from a cached Winter entry. -/
theorem claim_C4_cached_no_fetch_witness :
    (aidOf [("athlete_id", "7")] ∉ ([] : List String)
      ∧ cacheSeason [("7", ⟨some ["2022 Winter Olympics"], none⟩)]
          (aidOf [("athlete_id", "7")]) "Winter"
        = some ["2022 Winter Olympics"]
      ∧ (["2022 Winter Olympics"] : List String) ≠ [])
    ∧ ((classify_athletes [] [] [("7", ⟨some ["2022 Winter Olympics"], none⟩)]
          (fun _ => none) (fun _ => []) "Winter" none ["Games"]
          ([] ++ [("athlete_id", "7")] :: []) 0).2.2
        = (classify_athletes [] []
          [("7", ⟨some ["2022 Winter Olympics"], none⟩)]
          (fun _ => none) (fun _ => []) "Winter" none ["Games"]
          ([] ++ []) 0).2.2
      ∧ classify_athletes [] [] [("7", ⟨some ["2022 Winter Olympics"], none⟩)]
          (fun _ => none) (fun _ => []) "Winter" none ["Games"]
          [[("athlete_id", "7")]] 0
        = ([("", build_out_row [("athlete_id", "7")]
              (joinSemi (sortStrs ["2022 Winter Olympics"])) ["Games"])],
            [], 0)) :=
  ⟨⟨by decide, by decide, by decide⟩,
    claim_C4_cached_no_fetch [] [] [("7", ⟨some ["2022 Winter Olympics"], none⟩)]
      (fun _ => none) (fun _ => []) "Winter" none ["Games"] [] []
      [("athlete_id", "7")] 0 ["2022 Winter Olympics"] (by decide) (by decide)
      (by decide)⟩

/-- C5: `build_output_cache` reads only the two matched tables of each
season directory — never a `no-match.csv` — so (i) any two prior-output
states agreeing on those four files build the same cache, (ii) an athlete
id appearing in no matched table has no cache entry at all (it stays
Unseen), and (iii) the classifier therefore sends such an athlete (when
also not in the seen-set) to `needs_scrape`, attempting a live scrape. -/
theorem claim_C5_no_match_never_read
    (fs fs2 : String → String → Option (List Row)) (a : String)
    (seen : List String) (lookup : Lookup) (season : String)
    (state_key : Option (Row → String)) (out_fields : List String) (row : Row)
    (hagree : ∀ dir fname, (dir = WINTER_DIR ∨ dir = SUMMER_DIR) →
      (fname = "all-states.csv" ∨ fname = "us-born-elsewhere.csv") →
      fs dir fname = fs2 dir fname)
    (habs : ∀ dir fname rows, (dir = WINTER_DIR ∨ dir = SUMMER_DIR) →
      (fname = "all-states.csv" ∨ fname = "us-born-elsewhere.csv") →
      fs dir fname = some rows → ∀ r ∈ rows,
        trimStr (rowGet r "athlete_id") = ""
          ∨ trimStr (rowGet r "athlete_id") ≠ a)
    (hrow : aidOf row = a) (hseen : aidOf row ∉ seen) :
    build_output_cache fs = build_output_cache fs2
    ∧ cacheGet (build_output_cache fs) a = none
    ∧ classifyPhase1 seen lookup (build_output_cache fs) season state_key
        out_fields [row] = ([], [row]) := by
  have hget : cacheGet (build_output_cache fs) a = none := by
    unfold build_output_cache
    rw [cacheGet_fileStep_ne _ _ _ _ _ _
      (fun rows hr => habs _ _ rows (Or.inr rfl) (Or.inr rfl) hr)]
    rw [cacheGet_fileStep_ne _ _ _ _ _ _
      (fun rows hr => habs _ _ rows (Or.inr rfl) (Or.inl rfl) hr)]
    rw [cacheGet_fileStep_ne _ _ _ _ _ _
      (fun rows hr => habs _ _ rows (Or.inl rfl) (Or.inr rfl) hr)]
    rw [cacheGet_fileStep_ne _ _ _ _ _ _
      (fun rows hr => habs _ _ rows (Or.inl rfl) (Or.inl rfl) hr)]
    rfl
  refine ⟨?_, hget, ?_⟩
  · have h1 := hagree WINTER_DIR "all-states.csv" (Or.inl rfl) (Or.inl rfl)
    have h2 := hagree WINTER_DIR "us-born-elsewhere.csv" (Or.inl rfl)
      (Or.inr rfl)
    have h3 := hagree SUMMER_DIR "all-states.csv" (Or.inr rfl) (Or.inl rfl)
    have h4 := hagree SUMMER_DIR "us-born-elsewhere.csv" (Or.inr rfl)
      (Or.inr rfl)
    simp only [build_output_cache, cacheFileStep, h1, h2, h3, h4]
  · have hcs : cacheSeason (build_output_cache fs) (aidOf row) season
        = none := by
      unfold cacheSeason
      rw [hrow, hget]
    simp [classifyPhase1, hseen, hcs]

/-- Witness for C5: a prior run that produced only a Winter no-match row
for athlete "9". -/
theorem claim_C5_no_match_never_read_witness :
    ((∀ dir fname, (dir = WINTER_DIR ∨ dir = SUMMER_DIR) →
        (fname = "all-states.csv" ∨ fname = "us-born-elsewhere.csv") →
        fsNoMatchOnly dir fname = fsEmpty dir fname)
      ∧ aidOf [("athlete_id", "9")] = "9"
      ∧ aidOf [("athlete_id", "9")] ∉ ([] : List String))
    ∧ (build_output_cache fsNoMatchOnly = build_output_cache fsEmpty
      ∧ cacheGet (build_output_cache fsNoMatchOnly) "9" = none
      ∧ classifyPhase1 [] [] (build_output_cache fsNoMatchOnly) "Winter" none
          [] [[("athlete_id", "9")]] = ([], [[("athlete_id", "9")]])) :=
  ⟨⟨by
      intro dir fname hd hf
      rcases hd with hd | hd <;> rcases hf with hf | hf <;> subst hd <;>
        subst hf <;> decide,
    by decide, by decide⟩,
    claim_C5_no_match_never_read fsNoMatchOnly fsEmpty "9" [] [] "Winter"
      none [] [("athlete_id", "9")]
      (by
        intro dir fname hd hf
        rcases hd with hd | hd <;> rcases hf with hf | hf <;> subst hd <;>
          subst hf <;> decide)
      (by
        intro dir fname rows hd hf hsome
        rcases hd with hd | hd <;> rcases hf with hf | hf <;> subst hd <;>
          subst hf <;> simp [fsNoMatchOnly] at hsome)
      (by decide) (by decide)⟩

/-- C6 counterexample: a matched table whose row has an empty Games value
yields the cache entry `{Winter: some [], Summer: none}` for that athlete —
a resolved-empty state, which the claim says can never be reported.  The
classifier then treats the athlete as cached-with-no-games and skips it. -/
theorem claim_C6_counterexample :
    cacheGet (build_output_cache fsEmptyGames) "7" = some ⟨some [], none⟩
    ∧ cacheSeason (build_output_cache fsEmptyGames) "7" "Winter" = some []
    ∧ ¬ (cacheSeason (build_output_cache fsEmptyGames) "7" "Winter" = none
        ∨ ∃ l, cacheSeason (build_output_cache fsEmptyGames) "7" "Winter"
            = some l ∧ l ≠ []) := by
  refine ⟨by decide, by decide, ?_⟩
  intro h
  rcases h with h | ⟨l, hl, hlne⟩
  · exact absurd h (by decide)
  · have : l = [] := by
      have h0 : cacheSeason (build_output_cache fsEmptyGames) "7" "Winter"
          = some [] := by decide
      rw [h0] at hl
      cases hl
      rfl
    exact hlne this

/-- C6 amended: when every row of the four matched tables parses to a
non-empty edition list, the cache reports only Unseen or
ResolvedNonEmpty for every (identifier, season) pair; a row with an empty
Games value instead produces a resolved-empty (`some []`) entry.  Missing
prior-output files (all four absent) yield the empty cache rather than an
error. -/
theorem claim_C6_cache_states (fs : String → String → Option (List Row))
    (hgames : ∀ dir fname rows, fs dir fname = some rows →
      ∀ r ∈ rows, parseGames (trimStr (rowGet r "Games")) ≠ []) :
    (∀ a e, cacheGet (build_output_cache fs) a = some e →
      (e.winter = none ∨ ∃ l, e.winter = some l ∧ l ≠ [])
        ∧ (e.summer = none ∨ ∃ l, e.summer = some l ∧ l ≠ []))
    ∧ ((∀ dir fname, fs dir fname = none) → build_output_cache fs = []) := by
  constructor
  · have : cacheWF (build_output_cache fs) := by
      unfold build_output_cache
      refine cacheWF_file _ _ _ _ _ (hgames _ _) ?_
      refine cacheWF_file _ _ _ _ _ (hgames _ _) ?_
      refine cacheWF_file _ _ _ _ _ (hgames _ _) ?_
      exact cacheWF_file _ _ _ _ _ (hgames _ _) cacheWF_empty
    exact fun a e h => this a e h
  · intro hnone
    simp only [build_output_cache, cacheFileStep, hnone]

/-- Witness for the amended C6: one Winter matched table with a non-empty
Games value. -/
theorem claim_C6_cache_states_witness :
    (∀ dir fname rows, fsCacheDemo dir fname = some rows →
      ∀ r ∈ rows, parseGames (trimStr (rowGet r "Games")) ≠ [])
    ∧ ((∀ a e, cacheGet (build_output_cache fsCacheDemo) a = some e →
        (e.winter = none ∨ ∃ l, e.winter = some l ∧ l ≠ [])
          ∧ (e.summer = none ∨ ∃ l, e.summer = some l ∧ l ≠ []))
      ∧ ((∀ dir fname, fsCacheDemo dir fname = none)
          → build_output_cache fsCacheDemo = [])) := by
  have hg : ∀ dir fname rows, fsCacheDemo dir fname = some rows →
      ∀ r ∈ rows, parseGames (trimStr (rowGet r "Games")) ≠ [] := by
    intro dir fname rows hsome r hr
    by_cases hc : dir = WINTER_DIR ∧ fname = "all-states.csv"
    · rcases hc with ⟨hd, hf⟩
      subst hd; subst hf
      rw [show fsCacheDemo WINTER_DIR "all-states.csv"
          = some [[("athlete_id", "7"), ("Games", "2022 Winter Olympics")]]
        from by decide] at hsome
      cases hsome
      simp only [List.mem_singleton] at hr
      subst hr
      decide
    · unfold fsCacheDemo at hsome
      rw [if_neg hc] at hsome
      cases hsome
  exact ⟨hg, claim_C6_cache_states fsCacheDemo hg⟩

/-- C8: birth-state derivation searches the born field with
`,\s*([^,]+?)\s*\(([A-Z]+)\)\s*$` and returns group 1 stripped, or
"Unknown" on no match: "12 May 1990 in Helena, Montana (USA)" gives
"Montana", "in Paris (FRA)" gives "Unknown" (no comma, so the pattern
cannot match); `parse_born` of olympians-by-state.py returns the same
group 1 plus the country code, or `None`.  Whenever the search fails,
`born_state` returns the sentinel. -/
theorem claim_C8_born_state :
    born_state [("Born", "12 May 1990 in Helena, Montana (USA)")] = "Montana"
    ∧ born_state [("Born", "in Paris (FRA)")] = "Unknown"
    ∧ parse_born "12 May 1990 in Helena, Montana (USA)"
      = some ("Montana", "USA")
    ∧ parse_born "in Paris (FRA)" = none
    ∧ ∀ row, bornSearch (rowGet row "Born").data = none →
        born_state row = "Unknown" := by
  refine ⟨by decide, by decide, by decide, by decide, ?_⟩
  intro row h
  simp [born_state, h]

/-- Witness for C8's no-match clause at the Paris input. -/
theorem claim_C8_born_state_witness :
    bornSearch (rowGet [("Born", "in Paris (FRA)")] "Born").data = none
    ∧ born_state [("Born", "in Paris (FRA)")] = "Unknown" :=
  ⟨by decide,
    claim_C8_born_state.2.2.2.2 [("Born", "in Paris (FRA)")] (by decide)⟩

theorem searchLoop_res (oracle : String → Option String)
    (extract : String → List (String × String)) (season : String)
    (links : List (String × String)) (n : Nat) :
    (searchLoop oracle extract season links n).1
      = (links.filterMap (fun l => matchAthleteHref l.1)).findSome?
          (fun idStr => (games_from_page oracle extract season idStr 0).1) := by
  induction links generalizing n with
  | nil => rfl
  | cons link rest ih =>
    rcases hm : matchAthleteHref link.1 with _ | idStr
    · simp only [searchLoop, hm, List.filterMap_cons, ih]
    · simp only [searchLoop, hm, List.filterMap_cons]
      rw [games_from_page_shift oracle extract season idStr n]
      rcases hr : (games_from_page oracle extract season idStr 0).1
        with _ | gs
      · simp only [hr, List.findSome?_cons, ih]
      · simp only [hr, List.findSome?_cons]

theorem searchLoopFW_res (oracle : String → Option String)
    (extract : String → List (String × String))
    (links : List (String × String)) (n : Nat) :
    (searchLoopFW oracle extract links n).1
      = (links.filterMap (fun l => matchAthleteHref l.1)).findSome?
          (fun idStr => (winter_games_from_page oracle extract idStr 0).1) := by
  induction links generalizing n with
  | nil => rfl
  | cons link rest ih =>
    rcases hm : matchAthleteHref link.1 with _ | idStr
    · simp only [searchLoopFW, hm, List.filterMap_cons, ih]
    · simp only [searchLoopFW, hm, List.filterMap_cons]
      rw [winter_games_from_page_shift oracle extract idStr n]
      rcases hr : (winter_games_from_page oracle extract idStr 0).1
        with _ | gs
      · simp only [hr, List.findSome?_cons, ih]
      · simp only [hr, List.findSome?_cons]

/-- C9: the name-based lookup (i) returns failure, without fetching,
when the name has no tokens; (ii) returns failure when the search-page
fetch fails; (iii) otherwise its result is the season list of the FIRST
link whose href matches `^/athletes/(\d+)$` and whose profile fetch is a
non-failure (`List.findSome?` over the candidates in page order), and is
`none` — failure, not an empty list — when no candidate yields a
non-failure result.  Both the season-parameterised version and the
Winter-only version of filter-winter.py are covered. -/
theorem claim_C9_search_first_nonfailure (oracle : String → Option String)
    (extract : String → List (String × String)) (season : String) :
    (∀ used_name n, splitTokens (replaceBullet used_name) = [] →
      search_and_find_season oracle extract season used_name n = (none, n)
        ∧ search_and_find_winter oracle extract used_name n = (none, n))
    ∧ (∀ used_name n, splitTokens (replaceBullet used_name) ≠ [] →
      oracle (searchUrl used_name) = none →
      search_and_find_season oracle extract season used_name n = (none, n + 1)
        ∧ search_and_find_winter oracle extract used_name n = (none, n + 1))
    ∧ (∀ used_name html n, splitTokens (replaceBullet used_name) ≠ [] →
      oracle (searchUrl used_name) = some html →
      (search_and_find_season oracle extract season used_name n).1
        = ((extract html).filterMap (fun l => matchAthleteHref l.1)).findSome?
            (fun idStr => (games_from_page oracle extract season idStr 0).1)
        ∧ (search_and_find_winter oracle extract used_name n).1
          = ((extract html).filterMap
              (fun l => matchAthleteHref l.1)).findSome?
              (fun idStr =>
                (winter_games_from_page oracle extract idStr 0).1)) := by
  refine ⟨?_, ?_, ?_⟩
  · intro used_name n hp
    constructor
    · simp [search_and_find_season, hp]
    · simp [search_and_find_winter, hp]
  · intro used_name n hp ho
    constructor
    · simp only [search_and_find_season, hp, ite_false]
      rw [show BASE_URL ++ "/athletes/quick_search?query="
          ++ quotePlus (String.intercalate " "
            (splitTokens (replaceBullet used_name)))
        = searchUrl used_name from rfl, ho]
    · simp only [search_and_find_winter, hp, ite_false]
      rw [show BASE_URL ++ "/athletes/quick_search?query="
          ++ quotePlus (String.intercalate " "
            (splitTokens (replaceBullet used_name)))
        = searchUrl used_name from rfl, ho]
  · intro used_name html n hp ho
    constructor
    · simp only [search_and_find_season, hp, ite_false]
      rw [show BASE_URL ++ "/athletes/quick_search?query="
          ++ quotePlus (String.intercalate " "
            (splitTokens (replaceBullet used_name)))
        = searchUrl used_name from rfl, ho]
      exact searchLoop_res oracle extract season (extract html) (n + 1)
    · simp only [search_and_find_winter, hp, ite_false]
      rw [show BASE_URL ++ "/athletes/quick_search?query="
          ++ quotePlus (String.intercalate " "
            (splitTokens (replaceBullet used_name)))
        = searchUrl used_name from rfl, ho]
      exact searchLoopFW_res oracle extract (extract html) (n + 1)

/-- Witness for C9: an empty name, a failing oracle, and the fixture
search/profile pages for "Jo Dam" (the first profile link wins). -/
theorem claim_C9_search_first_nonfailure_witness :
    (splitTokens (replaceBullet " ") = []
      ∧ search_and_find_season (fun _ => none) extractC9 "Winter" " " 0
        = (none, 0))
    ∧ (splitTokens (replaceBullet "Jo Dam") ≠ []
      ∧ (fun _ => (none : Option String)) (searchUrl "Jo Dam") = none
      ∧ search_and_find_season (fun _ => none) extractC9 "Winter" "Jo Dam" 3
        = (none, 4))
    ∧ (oracleC9 (searchUrl "Jo Dam") = some "searchpage"
      ∧ (search_and_find_season oracleC9 extractC9 "Winter" "Jo Dam" 0).1
        = ((extractC9 "searchpage").filterMap
            (fun l => matchAthleteHref l.1)).findSome?
            (fun idStr =>
              (games_from_page oracleC9 extractC9 "Winter" idStr 0).1)) :=
  ⟨⟨by decide,
    ((claim_C9_search_first_nonfailure (fun _ => none) extractC9 "Winter").1
      " " 0 (by decide)).1⟩,
    ⟨by decide, rfl,
    ((claim_C9_search_first_nonfailure (fun _ => none) extractC9 "Winter").2.1
      "Jo Dam" 3 (by decide) rfl).1⟩,
    ⟨by decide,
    ((claim_C9_search_first_nonfailure oracleC9 extractC9 "Winter").2.2
      "Jo Dam" "searchpage" 0 (by decide) (by decide)).1⟩⟩

/-- C10: a season-matched row in the state-grouping category whose derived
key is not one of the recognized state names (for example "Unknown") is
written to none of the season's output tables: deleting the row changes no
produced table, because every table is built by iterating over the
recognized-states list.  The embedded `write_season_output` covers both
filter-by-olympics.py's function and the identically-shaped module-level
output code of filter-winter.py. -/
theorem claim_C10_unrecognized_state_dropped (states_list : List String)
    (pre post : List (String × Row)) (key : String) (r : Row)
    (elsewhere_rows : List (String × Row)) (no_match : List Row)
    (hk : key ∉ states_list) :
    write_season_output states_list (pre ++ (key, r) :: post) elsewhere_rows
        no_match
      = write_season_output states_list (pre ++ post) elsewhere_rows
        no_match := by
  have hg : ∀ s ∈ sortStrs states_list,
      groupGet (buildGroups (pre ++ (key, r) :: post)) s
        = groupGet (buildGroups (pre ++ post)) s := by
    intro s hs
    have hks : (key == s) = false := by
      have : key ≠ s := fun he => hk (he ▸ (mem_sortStrs s states_list).mp hs)
      simpa using this
    rw [groupGet_buildGroups, groupGet_buildGroups]
    simp [List.filter_append, List.filter_cons, hks]
  unfold write_season_output
  simp only [SeasonOutput.mk.injEq]
  refine ⟨?_, ?_, ?_, trivial, trivial⟩
  · congr 1
    exact List.map_congr_left (fun s hs => by rw [hg s hs])
  · congr 1
    exact List.map_congr_left (fun s hs => by rw [hg s hs])
  · congr 1
    exact List.map_congr_left (fun s hs => by rw [hg s hs])

/-- Witness for C10: an "Unknown"-keyed row against a one-state list. -/
theorem claim_C10_unrecognized_state_dropped_witness :
    ("Unknown" ∉ ["Montana"]
      ∧ write_season_output ["Montana"]
          ([] ++ ("Unknown", [("athlete_id", "7")]) :: []) [] []
        = write_season_output ["Montana"] ([] ++ []) [] []) :=
  ⟨by decide,
    claim_C10_unrecognized_state_dropped ["Montana"] [] [] "Unknown"
      [("athlete_id", "7")] [] [] (by decide)⟩

/-! ### Order facts for the string sort -/

theorem leCh_total (a : List Char) : ∀ b, leCh a b = true ∨ leCh b a = true := by
  induction a with
  | nil => intro b; left; rfl
  | cons x xs ih =>
    intro b
    cases b with
    | nil => right; rfl
    | cons y ys =>
      by_cases h : x.toNat = y.toNat
      · rcases ih ys with h1 | h1
        · left; unfold leCh; rw [if_pos h]; exact h1
        · right; unfold leCh; rw [if_pos h.symm]; exact h1
      · rcases Nat.lt_or_ge x.toNat y.toNat with hlt | hge
        · left; unfold leCh; rw [if_neg h]; exact decide_eq_true hlt
        · have hyx : y.toNat < x.toNat :=
            Nat.lt_of_le_of_ne hge (fun he => h he.symm)
          right
          unfold leCh
          rw [if_neg (fun he => h he.symm)]
          exact decide_eq_true hyx

theorem leCh_trans (a : List Char) :
    ∀ b c, leCh a b = true → leCh b c = true → leCh a c = true := by
  induction a with
  | nil => intro b c _ _; rfl
  | cons x xs ih =>
    intro b c h1 h2
    cases b with
    | nil => cases h1
    | cons y ys =>
      cases c with
      | nil => cases h2
      | cons z zs =>
        unfold leCh at h1 h2 ⊢
        by_cases hxy : x.toNat = y.toNat
        · by_cases hyz : y.toNat = z.toNat
          · rw [if_pos hxy] at h1
            rw [if_pos hyz] at h2
            rw [if_pos (hxy.trans hyz)]
            exact ih ys zs h1 h2
          · rw [if_pos hxy] at h1
            rw [if_neg hyz] at h2
            have hlt : x.toNat < z.toNat := hxy ▸ of_decide_eq_true h2
            rw [if_neg (Nat.ne_of_lt hlt)]
            exact decide_eq_true hlt
        · by_cases hyz : y.toNat = z.toNat
          · rw [if_neg hxy] at h1
            have hlt : x.toNat < z.toNat := hyz ▸ of_decide_eq_true h1
            rw [if_neg (Nat.ne_of_lt hlt)]
            exact decide_eq_true hlt
          · rw [if_neg hxy] at h1
            rw [if_neg hyz] at h2
            have hlt : x.toNat < z.toNat :=
              Nat.lt_trans (of_decide_eq_true h1) (of_decide_eq_true h2)
            rw [if_neg (Nat.ne_of_lt hlt)]
            exact decide_eq_true hlt

instance : IsTotal String (fun a b => leStr a b = true) :=
  ⟨fun a b => leCh_total a.data b.data⟩

instance : IsTrans String (fun a b => leStr a b = true) :=
  ⟨fun a b c => leCh_trans a.data b.data c.data⟩

theorem sortStrs_sorted (l : List String) :
    List.Sorted (fun a b => leStr a b = true) (sortStrs l) :=
  List.sorted_insertionSort _ l

theorem sortStrs_idem (l : List String) :
    sortStrs (sortStrs l) = sortStrs l :=
  List.Sorted.insertionSort_eq (sortStrs_sorted l)

/-! ### The semicolon join/split round trip -/

theorem data_append (a b : String) : (a ++ b).data = a.data ++ b.data := by
  cases a
  cases b
  rfl

theorem mk_data (s : String) : String.mk s.data = s := rfl

theorem dropWhile_eq_self_of_head (p : Char → Bool) (l : List Char)
    (h : ∀ c, l.head? = some c → p c = false) : l.dropWhile p = l := by
  cases l with
  | nil => rfl
  | cons c t =>
    rw [List.dropWhile_cons_of_neg]
    simp [h c rfl]

theorem trimStr_eq_self (s : String)
    (hh : ∀ c, s.data.head? = some c → c.isWhitespace = false)
    (hl : ∀ c, s.data.getLast? = some c → c.isWhitespace = false) :
    trimStr s = s := by
  unfold trimStr
  rw [dropWhile_eq_self_of_head _ s.data hh]
  rw [dropWhile_eq_self_of_head _ s.data.reverse (by
    intro c hc
    rw [List.head?_reverse] at hc
    exact hl c hc)]
  rw [List.reverse_reverse]

theorem trimStr_of_tokOK (t : String) (h : tokOK t) : trimStr t = t :=
  trimStr_eq_self t h.2.2.1 h.2.2.2

theorem joinSemi_cons_cons (t u : String) (rest : List String) :
    joinSemi (t :: u :: rest) = t ++ "; " ++ joinSemi (u :: rest) := rfl

theorem joinSemi_data_ne_nil (t : String) (rest : List String)
    (ht : t.data ≠ []) : (joinSemi (t :: rest)).data ≠ [] := by
  cases rest with
  | nil => exact ht
  | cons u rest' =>
    rw [joinSemi_cons_cons, data_append, data_append]
    simp [ht]

theorem joinSemi_head? (t : String) (rest : List String) (ht : t.data ≠ []) :
    (joinSemi (t :: rest)).data.head? = t.data.head? := by
  cases rest with
  | nil => rfl
  | cons u rest' =>
    rw [joinSemi_cons_cons, data_append, data_append]
    obtain ⟨c, cs, hcs⟩ := List.exists_cons_of_ne_nil ht
    rw [hcs]
    rfl

theorem joinSemi_getLast_ws (L : List String) (h : ∀ t ∈ L, tokOK t) :
    ∀ c, (joinSemi L).data.getLast? = some c → c.isWhitespace = false := by
  induction L with
  | nil => intro c hc; cases hc
  | cons t rest ih =>
    cases rest with
    | nil => exact (h t (List.mem_cons_self _ _)).2.2.2
    | cons u rest' =>
      intro c hc
      rw [joinSemi_cons_cons, data_append, data_append] at hc
      rw [List.getLast?_append_of_ne_nil _ (joinSemi_data_ne_nil u rest'
        (h u (List.mem_cons_of_mem _ (List.mem_cons_self _ _))).1)] at hc
      exact ih (fun v hv => h v (List.mem_cons_of_mem _ hv)) c hc

theorem trim_joinSemi (t : String) (rest : List String)
    (h : ∀ u ∈ t :: rest, tokOK u) :
    trimStr (joinSemi (t :: rest)) = joinSemi (t :: rest) := by
  refine trimStr_eq_self _ ?_ (joinSemi_getLast_ws _ h)
  intro c hc
  rw [joinSemi_head? t rest (h t (List.mem_cons_self _ _)).1] at hc
  exact (h t (List.mem_cons_self _ _)).2.2.1 c hc

theorem splitSemiCh_ne_nil (l : List Char) : splitSemiCh l ≠ [] := by
  cases l with
  | nil => simp [splitSemiCh]
  | cons c t =>
    unfold splitSemiCh
    by_cases h : c = ';'
    · simp [h]
    · rcases hst : splitSemiCh t with _ | ⟨p, ps⟩ <;> simp [h, hst]

theorem splitSemiCh_cons_semi (t : List Char) :
    splitSemiCh (';' :: t) = [] :: splitSemiCh t := by
  simp [splitSemiCh]

theorem splitSemiCh_cons_ne (c : Char) (t : List Char) (hc : c ≠ ';') :
    splitSemiCh (c :: t)
      = match splitSemiCh t with
        | [] => [[c]]
        | p :: ps => (c :: p) :: ps := by
  simp only [splitSemiCh]
  rw [if_neg hc]

theorem splitSemiCh_append_noSemi (l r : List Char)
    (hl : ∀ c ∈ l, c ≠ ';') :
    splitSemiCh (l ++ r)
      = match splitSemiCh r with
        | [] => [l]
        | p :: ps => (l ++ p) :: ps := by
  induction l with
  | nil =>
    rcases h : splitSemiCh r with _ | ⟨p, ps⟩
    · exact absurd h (splitSemiCh_ne_nil r)
    · simp [h]
  | cons c t ih =>
    have hc : c ≠ ';' := hl c (List.mem_cons_self _ _)
    show splitSemiCh (c :: (t ++ r)) = _
    rw [splitSemiCh_cons_ne c (t ++ r) hc]
    rw [ih (fun d hd => hl d (List.mem_cons_of_mem _ hd))]
    rcases h : splitSemiCh r with _ | ⟨p, ps⟩
    · exact absurd h (splitSemiCh_ne_nil r)
    · simp [h]

theorem splitSemi_join (t : String) (rest : List String)
    (h : ∀ u ∈ t :: rest, ∀ c ∈ u.data, c ≠ ';') :
    splitSemiCh (joinSemi (t :: rest)).data
      = t.data :: rest.map (fun u => ' ' :: u.data) := by
  induction rest generalizing t with
  | nil =>
    show splitSemiCh t.data = [t.data]
    have := splitSemiCh_append_noSemi t.data []
      (fun c hc => h t (List.mem_cons_self _ _) c hc)
    simpa [splitSemiCh] using this
  | cons u rest' ih =>
    rw [joinSemi_cons_cons, data_append, data_append, List.append_assoc]
    have hsplit : splitSemiCh
        (("; " : String).data ++ (joinSemi (u :: rest')).data)
        = [] :: (' ' :: u.data) :: rest'.map (fun v => ' ' :: v.data) := by
      have hj := ih u (fun v hv c hc =>
        h v (List.mem_cons_of_mem _ hv) c hc)
      show splitSemiCh (';' :: ' ' :: (joinSemi (u :: rest')).data) = _
      rw [splitSemiCh_cons_semi]
      rw [splitSemiCh_cons_ne ' ' _ (by decide)]
      rw [hj]
    rw [splitSemiCh_append_noSemi t.data _
      (fun c hc => h t (List.mem_cons_self _ _) c hc)]
    rw [hsplit]
    simp

theorem trimStr_space_cons (u : String) (hu : tokOK u) :
    trimStr (String.mk (' ' :: u.data)) = u := by
  show trimStr ⟨' ' :: u.data⟩ = u
  unfold trimStr
  show String.mk ((((' ' :: u.data).dropWhile Char.isWhitespace).reverse.dropWhile
    Char.isWhitespace).reverse) = u
  rw [List.dropWhile_cons_of_pos (by decide)]
  rw [dropWhile_eq_self_of_head _ u.data hu.2.2.1]
  rw [dropWhile_eq_self_of_head _ u.data.reverse (by
    intro c hc
    rw [List.head?_reverse] at hc
    exact hu.2.2.2 c hc)]
  rw [List.reverse_reverse]

theorem ne_empty_of_data_ne_nil (t : String) (h : t.data ≠ []) : t ≠ "" := by
  intro he
  rw [he] at h
  exact h rfl

theorem parseGames_joinSemi (L : List String) (h : ∀ t ∈ L, tokOK t)
    (hne : L ≠ []) : parseGames (trimStr (joinSemi L)) = L := by
  obtain ⟨t, rest, rfl⟩ := List.exists_cons_of_ne_nil hne
  rw [trim_joinSemi t rest h]
  unfold parseGames
  rw [splitSemi_join t rest (fun u hu c hc => (h u hu).2.1 c hc)]
  simp only [List.map_cons, List.filter_cons]
  rw [mk_data, trimStr_of_tokOK t (h t (List.mem_cons_self _ _))]
  rw [List.map_map]
  have hmap : rest.map
      ((fun cs => trimStr (String.mk cs)) ∘ (fun u => ' ' :: u.data))
      = rest.map id := by
    refine List.map_congr_left ?_
    intro u hu
    show trimStr (String.mk (' ' :: u.data)) = u
    exact trimStr_space_cons u (h u (List.mem_cons_of_mem _ hu))
  rw [hmap, List.map_id]
  have hfilter : rest.filter (fun g => g ≠ "") = rest := by
    rw [List.filter_eq_self]
    intro u hu
    simpa using ne_empty_of_data_ne_nil u (h u (List.mem_cons_of_mem _ hu)).1
  rw [hfilter]
  simp [ne_empty_of_data_ne_nil t (h t (List.mem_cons_self _ _)).1]

/-! ### Row access through `build_out_row`, `write_csv` and `DictReader` -/

theorem dictSet_keyfun (k v : String) :
    ∀ p : String × String,
      ((fun p => if p.1 == k then (k, v) else p) p).1 = p.1 := by
  intro p
  rcases hp : (p.1 == k) with _ | _
  · simp [hp]
  · simp [hp, (eq_of_beq hp).symm]

theorem rowGet_dictSet_self (d : Row) (k v : String) :
    rowGet (dictSet d k v) k = v := by
  unfold rowGet dictSet
  rcases hany : d.any (fun p => p.1 == k) with _ | _
  · simp only [hany, Bool.false_eq_true, if_false]
    rw [find?_append_singleton]
    rw [find?_eq_none_of_any_false d k hany]
    simp
  · simp only [hany, if_true]
    rw [find?_map_keyfun _ (dictSet_keyfun k v)]
    rcases hf : d.find? (fun p => p.1 == k) with _ | p
    · exfalso
      rcases List.any_eq_true.mp hany with ⟨p, hp, hpk⟩
      rw [List.find?_eq_none] at hf
      exact hf p hp hpk
    · have hpk := List.find?_some hf
      have hp1 : p.1 = k := by simpa using hpk
      rw [hf]
      simp [hp1]

theorem rowGet_dictSet_ne (d : Row) (k v k2 : String) (h : k ≠ k2) :
    rowGet (dictSet d k v) k2 = rowGet d k2 := by
  have hk : (k == k2) = false := by simpa using h
  unfold rowGet dictSet
  rcases hany : d.any (fun p => p.1 == k) with _ | _
  · simp only [hany, Bool.false_eq_true, if_false]
    rw [find?_append_singleton]
    rcases hf : d.find? (fun p => p.1 == k2) with _ | p <;> simp [hf, hk]
  · simp only [hany, if_true]
    rw [find?_map_keyfun _ (dictSet_keyfun k v)]
    rcases hf : d.find? (fun p => p.1 == k2) with _ | p
    · simp [hf]
    · have hps := List.find?_some hf
      have hpk : ¬ p.1 = k := by
        have hp1 : p.1 = k2 := by simpa using hps
        rw [hp1]
        exact fun he => h he.symm
      rw [hf]
      simp [hpk]

theorem rowGet_fieldsMap (F : List String) (r : Row) (k : String)
    (hk : k ∈ F) :
    rowGet (F.map (fun f => (f, rowGet r f))) k = rowGet r k := by
  induction F with
  | nil => cases hk
  | cons f fs ih =>
    rcases hfk : (f == k) with _ | _
    · have : k ∈ fs := by
        rcases List.mem_cons.mp hk with h | h
        · exfalso
          rw [h] at hfk
          simp at hfk
        · exact h
      unfold rowGet
      simp only [List.map_cons, List.find?_cons, hfk]
      exact ih this
    · have hf : f = k := by simpa using hfk
      unfold rowGet
      simp only [List.map_cons, List.find?_cons, hfk]
      rw [hf]

theorem rowGet_projectRow (F : List String) (w : Row) (k : String)
    (hk : k ∈ F) : rowGet (projectRow F w) k = rowGet w k :=
  rowGet_fieldsMap F w k hk

theorem rowGet_build_out_row_games (r : Row) (g : String) (F : List String) :
    rowGet (build_out_row r g F) "Games" = g :=
  rowGet_dictSet_self _ _ _

theorem rowGet_build_out_row_ne (r : Row) (g : String) (F : List String)
    (k : String) (hk : k ∈ F) (hkg : k ≠ "Games") :
    rowGet (build_out_row r g F) k = rowGet r k := by
  unfold build_out_row
  rw [rowGet_dictSet_ne _ _ _ _ (fun he => hkg he.symm)]
  exact rowGet_fieldsMap F r k hk

theorem games_mem_make_out_fields (F : List String) :
    "Games" ∈ make_out_fields F := by
  unfold make_out_fields
  rcases h : F.contains "Roles" with _ | _
  · simp only [h, Bool.false_eq_true, if_false]
    rcases h2 : F.contains "Games" with _ | _
    · simp [h2]
    · simp only [h2, if_true]
      simpa using h2
  · simp only [h, if_true]
    exact List.mem_map.mpr ⟨"Roles", by simpa using h, by simp⟩

theorem aidOf_build_out_row (r : Row) (g : String) (F : List String)
    (hk : "athlete_id" ∈ F) : aidOf (build_out_row r g F) = aidOf r := by
  unfold aidOf
  rw [rowGet_build_out_row_ne r g F _ hk (by decide)]

theorem aidOf_projectRow (F : List String) (w : Row)
    (hk : "athlete_id" ∈ F) : aidOf (projectRow F w) = aidOf w := by
  unfold aidOf
  rw [rowGet_projectRow F w _ hk]

/-! ### Shape of the edition tokens produced by the scrapers -/

theorem isDigit_ne_semi (c : Char) (h : c.isDigit = true) : c ≠ ';' := by
  intro he
  rw [he] at h
  exact absurd h (by decide)

theorem isDigit_not_ws (c : Char) (h : c.isDigit = true) :
    c.isWhitespace = false := by
  have h1 : c ≠ ' ' := by intro he; rw [he] at h; exact absurd h (by decide)
  have h2 : c ≠ '\t' := by intro he; rw [he] at h; exact absurd h (by decide)
  have h3 : c ≠ '\r' := by intro he; rw [he] at h; exact absurd h (by decide)
  have h4 : c ≠ '\n' := by intro he; rw [he] at h; exact absurd h (by decide)
  simp [Char.isWhitespace, h1, h2, h3, h4]

theorem yearMatchPrefix_shape (season text g : String)
    (h : yearMatchPrefix season text = some g) :
    ∃ a b c d, a.isDigit = true ∧ b.isDigit = true ∧ c.isDigit = true
      ∧ d.isDigit = true
      ∧ g = String.mk [a, b, c, d] ++ " " ++ season ++ " Olympics" := by
  obtain ⟨td⟩ := text
  rcases td with _ | ⟨a, _ | ⟨b, _ | ⟨c, _ | ⟨d, rest⟩⟩⟩⟩ <;>
    simp only [yearMatchPrefix] at h
  pick_goal 5
  · split_ifs at h with hcond
    · cases h
      obtain ⟨⟨⟨⟨ha, hb⟩, hc⟩, hd⟩, -⟩ :
          (((a.isDigit = true ∧ b.isDigit = true) ∧ c.isDigit = true)
            ∧ d.isDigit = true)
          ∧ prefixCh (" " ++ season ++ " Olympics").data rest = true := by
        simpa using hcond
      exact ⟨a, b, c, d, ha, hb, hc, hd, rfl⟩
  all_goals cases h

theorem tokOK_winter_token (g : String)
    (hshape : ∃ a b c d, a.isDigit = true ∧ b.isDigit = true
      ∧ c.isDigit = true ∧ d.isDigit = true
      ∧ g = String.mk [a, b, c, d] ++ " " ++ "Winter" ++ " Olympics") :
    tokOK g := by
  obtain ⟨a, b, c, d, ha, hb, hc, hd, rfl⟩ := hshape
  have hdata : (String.mk [a, b, c, d] ++ " " ++ "Winter"
      ++ " Olympics").data = [a, b, c, d] ++ (" Winter Olympics").data := by
    rw [data_append, data_append, data_append]
    rfl
  refine ⟨?_, ?_, ?_, ?_⟩
  · rw [hdata]; simp
  · rw [hdata]
    intro x hx
    rcases List.mem_append.mp hx with hx | hx
    · simp only [List.mem_cons, List.not_mem_nil, or_false] at hx
      rcases hx with rfl | rfl | rfl | rfl
      · exact isDigit_ne_semi _ ha
      · exact isDigit_ne_semi _ hb
      · exact isDigit_ne_semi _ hc
      · exact isDigit_ne_semi _ hd
    · have hall : ∀ y ∈ (" Winter Olympics" : String).data, y ≠ ';' := by
        decide
      exact hall x hx
  · rw [hdata]
    intro x hx
    cases hx
    exact isDigit_not_ws _ ha
  · rw [hdata]
    intro x hx
    rw [List.getLast?_append_of_ne_nil _ (by decide)] at hx
    rw [show (" Winter Olympics" : String).data.getLast? = some 's' from by
      decide] at hx
    cases hx
    decide

theorem gamesLoopStep_mem (season : String) (minY : Nat) (acc : List String)
    (link : String × String) (g : String)
    (h : g ∈ gamesLoopStep season minY acc link) :
    g ∈ acc ∨ ∃ t, yearMatchPrefix season t = some g := by
  unfold gamesLoopStep at h
  split at h
  · split at h
    · split at h
      · rename_i g' hm h2
        rcases List.mem_append.mp h with h | h
        · exact Or.inl h
        · simp only [List.mem_singleton] at h
          subst h
          exact Or.inr ⟨link.2, hm⟩
      · exact Or.inl h
    · exact Or.inl h
  · exact Or.inl h

theorem gamesLoop_mem (season : String) (minY : Nat)
    (links : List (String × String)) (acc : List String) (g : String)
    (h : g ∈ links.foldl (gamesLoopStep season minY) acc) :
    g ∈ acc ∨ ∃ t, yearMatchPrefix season t = some g := by
  induction links generalizing acc with
  | nil => exact Or.inl h
  | cons link rest ih =>
    rcases ih (gamesLoopStep season minY acc link) h with h1 | h1
    · exact gamesLoopStep_mem season minY acc link g h1
    · exact Or.inr h1

theorem games_from_page_tok (oracle : String → Option String)
    (extract : String → List (String × String)) (id : String) (n : Nat)
    (G : List String)
    (h : (games_from_page oracle extract "Winter" id n).1 = some G) :
    (∀ g ∈ G, tokOK g) ∧ sortStrs G = G := by
  simp only [games_from_page] at h
  rcases ho : oracle (BASE_URL ++ "/athletes/" ++ id) with _ | html
  · rw [ho] at h; cases h
  · rw [ho] at h
    simp only [Option.some_inj] at h
    constructor
    · intro g hg
      rw [← h] at hg
      rw [mem_sortStrs] at hg
      rcases gamesLoop_mem "Winter" MIN_YEAR (extract html) [] g hg with h1 | h1
      · cases h1
      · obtain ⟨t, ht⟩ := h1
        exact tokOK_winter_token g (yearMatchPrefix_shape "Winter" t g ht)
    · rw [← h]
      exact sortStrs_idem _

theorem searchLoop_tok (oracle : String → Option String)
    (extract : String → List (String × String))
    (links : List (String × String)) (n : Nat) (G : List String)
    (h : (searchLoop oracle extract "Winter" links n).1 = some G) :
    (∀ g ∈ G, tokOK g) ∧ sortStrs G = G := by
  induction links generalizing n with
  | nil => cases h
  | cons link rest ih =>
    rcases hm : matchAthleteHref link.1 with _ | idStr
    · simp only [searchLoop, hm] at h
      exact ih _ h
    · simp only [searchLoop, hm] at h
      rcases hr : (games_from_page oracle extract "Winter" idStr n).1
        with _ | gs
      · simp only [hr] at h
        exact ih _ h
      · simp only [hr, Option.some_inj] at h
        rw [← h]
        exact games_from_page_tok oracle extract idStr n gs hr

theorem search_tok (oracle : String → Option String)
    (extract : String → List (String × String)) (name : String) (n : Nat)
    (G : List String)
    (h : (search_and_find_season oracle extract "Winter" name n).1 = some G) :
    (∀ g ∈ G, tokOK g) ∧ sortStrs G = G := by
  unfold search_and_find_season at h
  by_cases hp : splitTokens (replaceBullet name) = []
  · rw [if_pos hp] at h; cases h
  · rw [if_neg hp] at h
    rcases ho : oracle (BASE_URL ++ "/athletes/quick_search?query="
        ++ quotePlus (String.intercalate " " (splitTokens (replaceBullet name))))
      with _ | html
    · simp only [ho] at h
      cases h
    · simp only [ho] at h
      exact searchLoop_tok oracle extract (extract html) (n + 1) G h

theorem scrapeRes_tok (oracle : String → Option String)
    (extract : String → List (String × String)) (row : Row)
    (G : List String)
    (h : scrapeRes oracle extract "Winter" row = some G) :
    (∀ g ∈ G, tokOK g) ∧ sortStrs G = G := by
  unfold scrapeRes scrapeRow at h
  by_cases ha : aidOf row = ""
  · simp only [ha, ne_eq, not_true_eq_false, ite_false] at h
    exact search_tok oracle extract (rowGet row "Used name") 0 G h
  · simp only [ha, ne_eq, not_false_eq_true, ite_true] at h
    exact games_from_page_tok oracle extract (aidOf row) 0 G h

/-! ### Permutation form of the classifier output -/

theorem flatMap_append_perm (l : List Row) (f g : Row → List (String × Row)) :
    (l.flatMap fun x => f x ++ g x).Perm (l.flatMap f ++ l.flatMap g) := by
  induction l with
  | nil => exact List.Perm.refl _
  | cons a t ih =>
    simp only [List.flatMap_cons, List.append_assoc]
    refine (List.Perm.append_left (f a) ?_)
    exact (List.Perm.append_left _ ih).trans (List.perm_append_comm_assoc _ _ _)

theorem flatMap_filter_eq {β : Type} (l : List Row) (p : Row → Bool)
    (f : Row → List β) :
    (l.filter p).flatMap f
      = l.flatMap (fun x => if p x then f x else []) := by
  induction l with
  | nil => rfl
  | cons a t ih =>
    by_cases h : p a = true
    · simp [List.filter_cons, h, ih]
    · simp only [Bool.not_eq_true] at h
      simp [List.filter_cons, h, ih]

theorem flatMap_congr {β : Type} (l : List Row) (f g : Row → List β)
    (h : ∀ x ∈ l, f x = g x) : l.flatMap f = l.flatMap g := by
  induction l with
  | nil => rfl
  | cons a t ih =>
    simp only [List.flatMap_cons]
    rw [h a (List.mem_cons_self _ _),
      ih (fun x hx => h x (List.mem_cons_of_mem _ hx))]

theorem flatten_map_perm (l : List String) (f g : String → List Row)
    (h : ∀ x ∈ l, (f x).Perm (g x)) :
    (l.map f).flatten.Perm (l.map g).flatten := by
  induction l with
  | nil => exact List.Perm.refl _
  | cons a t ih =>
    simp only [List.map_cons, List.flatten_cons]
    exact (h a (List.mem_cons_self _ _)).append
      (ih (fun x hx => h x (List.mem_cons_of_mem _ hx)))

/-- `season_rows` of one category is, up to order, the concatenation of
the per-athlete total contributions. -/
theorem seasonRows_perm (seen : List String) (lookup : Lookup) (cache : Cache)
    (oracle : String → Option String)
    (extract : String → List (String × String))
    (sk : Option (Row → String)) (outF : List String) (ath : List Row) :
    (seasonRows seen lookup cache oracle extract sk outF ath).Perm
      (ath.flatMap
        (rowTotal seen lookup cache oracle extract "Winter" sk outF)) := by
  unfold seasonRows
  rw [classify_athletes_eq]
  simp only [rowTotal]
  rw [flatMap_filter_eq]
  exact (flatMap_append_perm ath _ _).symm

/-- `no_match_rows` of one category, row by row. -/
theorem noMatchRows_eq (seen : List String) (lookup : Lookup) (cache : Cache)
    (oracle : String → Option String)
    (extract : String → List (String × String))
    (sk : Option (Row → String)) (outF : List String) (ath : List Row) :
    noMatchRows seen lookup cache oracle extract sk outF ath
      = ath.flatMap (fun r =>
          if needsScrape seen cache "Winter" r then
            phase2RowN oracle extract "Winter" outF r
          else []) := by
  unfold noMatchRows
  rw [classify_athletes_eq]
  exact flatMap_filter_eq ath _ _

/-- Every row of the written `all-states.csv` is the second component of
some element of `states_rows`. -/
theorem mem_allSeason (states_list : List String)
    (srows erows : List (String × Row)) (nm : List Row) (x : Row)
    (hx : x ∈ (write_season_output states_list srows erows nm).allSeason) :
    ∃ p ∈ srows, p.2 = x := by
  simp only [write_season_output, List.mem_flatten, List.mem_map] at hx
  obtain ⟨L, ⟨s, hs, rfl⟩, hxL⟩ := hx
  rw [groupGet_buildGroups] at hxL
  obtain ⟨p, hp, rfl⟩ := List.mem_map.mp hxL
  exact ⟨p, List.mem_of_mem_filter hp, rfl⟩

/-- Every row of the written `us-born-elsewhere.csv` is the second
component of some element of `elsewhere_rows`. -/
theorem mem_elsewhereOut (states_list : List String)
    (srows erows : List (String × Row)) (nm : List Row) (x : Row)
    (hx : x ∈ (write_season_output states_list srows erows nm).elsewhereOut) :
    ∃ p ∈ erows, p.2 = x := by
  simp only [write_season_output, List.mem_map] at hx
  obtain ⟨p, hp, rfl⟩ := hx
  exact ⟨p, hp, rfl⟩

/-! ### `sorted(set(a) | set(b))` is idempotent on an already-sorted
duplicate-free operand -/

theorem char_eq_of_toNat_eq (a b : Char) (h : a.toNat = b.toNat) : a = b :=
  Char.eq_of_val_eq (UInt32.ext h)

theorem leCh_antisymm (a : List Char) : ∀ b, leCh a b = true →
    leCh b a = true → a = b := by
  induction a with
  | nil =>
    intro b h1 h2
    cases b with
    | nil => rfl
    | cons y ys => exact absurd h2 (by simp [leCh])
  | cons x xs ih =>
    intro b h1 h2
    cases b with
    | nil => exact absurd h1 (by simp [leCh])
    | cons y ys =>
      by_cases he : x.toNat = y.toNat
      · have hx : x = y := char_eq_of_toNat_eq x y he
        subst hx
        simp only [leCh, if_pos rfl] at h1 h2
        exact congrArg (x :: ·) (ih ys h1 h2)
      · simp only [leCh, if_neg he, decide_eq_true_eq] at h1
        simp only [leCh, if_neg (Ne.symm he), decide_eq_true_eq] at h2
        omega

theorem string_ext (a b : String) (h : a.data = b.data) : a = b := by
  cases a
  cases b
  exact congrArg String.mk h

instance : IsAntisymm String (fun a b => leStr a b = true) :=
  ⟨fun a b h1 h2 => string_ext a b (leCh_antisymm a.data b.data h1 h2)⟩

/-- `sorted` depends only on the multiset of elements. -/
theorem sortStrs_congr_perm (l l' : List String) (h : l.Perm l') :
    sortStrs l = sortStrs l' :=
  List.eq_of_perm_of_sorted
    ((sortStrs_perm l).trans (h.trans (sortStrs_perm l').symm))
    (sortStrs_sorted l) (sortStrs_sorted l')

theorem mem_dedupL (l : List String) :
    ∀ x, x ∈ dedupL l ↔ x ∈ l := by
  induction l with
  | nil => simp [dedupL]
  | cons y t ih =>
    intro x
    show x ∈ dedupIns y (dedupL t) ↔ _
    unfold dedupIns
    by_cases hy : (dedupL t).contains y = true
    · rw [if_pos hy]
      have hyt : y ∈ t := (ih y).mp (by simpa using hy)
      simp only [List.mem_cons, ih x]
      constructor
      · exact Or.inr
      · rintro (rfl | hx)
        · exact hyt
        · exact hx
    · rw [if_neg hy]
      simp [ih x]

theorem count_dedupL (x : String) (l : List String) :
    (dedupL l).count x = if x ∈ l then 1 else 0 := by
  induction l with
  | nil => simp [dedupL]
  | cons y t ih =>
    show (dedupIns y (dedupL t)).count x = _
    unfold dedupIns
    by_cases hy : (dedupL t).contains y = true
    · rw [if_pos hy]
      have hyt : y ∈ t := (mem_dedupL t y).mp (by simpa using hy)
      rw [ih]
      by_cases hx : x = y
      · subst hx
        simp [hyt]
      · simp [List.mem_cons, hx]
    · rw [if_neg hy]
      by_cases hx : x = y
      · subst hx
        rw [List.count_cons_self, ih]
        have hxt : x ∉ t := fun hm =>
          hy (by simpa using (mem_dedupL t x).mpr hm)
        simp [hxt]
      · rw [List.count_cons_of_ne hx, ih]
        simp [List.mem_cons, hx]

theorem dedupL_perm_of_nodup (G : List String) (hG : G.Nodup) :
    (dedupL (sortStrs G ++ G)).Perm G := by
  refine List.perm_iff_count.mpr (fun x => ?_)
  rw [count_dedupL]
  by_cases hx : x ∈ G
  · rw [if_pos (by simp [mem_sortStrs, hx]), List.count_eq_one_of_mem hG hx]
  · rw [if_neg (by simp [mem_sortStrs, hx]),
      (List.count_eq_zero_of_not_mem hx).symm]

/-- Re-adding a set's own sorted listing to it is a no-op: the union
`sorted(set(sorted(G)) | set(G))` is `sorted(G)` for duplicate-free `G`. -/
theorem sortedUnion_self (G : List String) (hG : G.Nodup) :
    sortedUnion (sortStrs G) G = sortStrs G := by
  unfold sortedUnion
  exact sortStrs_congr_perm _ _ (dedupL_perm_of_nodup G hG)

/-! ### Scrape results are duplicate-free -/

theorem gamesLoopStep_nodup (season : String) (minY : Nat)
    (acc : List String) (link : String × String) (h : acc.Nodup) :
    (gamesLoopStep season minY acc link).Nodup := by
  unfold gamesLoopStep
  split
  · split
    · split
      · rename_i g' hm h2
        have hg' : g' ∉ acc := by
          have h2' := h2
          simp only [Bool.and_eq_true, Bool.not_eq_true'] at h2'
          simpa using h2'.2
        simp [List.nodup_append, h, hg']
      · exact h
    · exact h
  · exact h

theorem gamesLoop_nodup (season : String) (minY : Nat)
    (links : List (String × String)) (acc : List String) (h : acc.Nodup) :
    (links.foldl (gamesLoopStep season minY) acc).Nodup := by
  induction links generalizing acc with
  | nil => exact h
  | cons link rest ih =>
    exact ih _ (gamesLoopStep_nodup season minY acc link h)

theorem games_from_page_nodup (oracle : String → Option String)
    (extract : String → List (String × String)) (season id : String)
    (n : Nat) (G : List String)
    (h : (games_from_page oracle extract season id n).1 = some G) :
    G.Nodup := by
  simp only [games_from_page] at h
  rcases ho : oracle (BASE_URL ++ "/athletes/" ++ id) with _ | html
  · rw [ho] at h; cases h
  · rw [ho] at h
    simp only [Option.some_inj] at h
    rw [← h]
    exact ((sortStrs_perm _).nodup_iff).mpr
      (gamesLoop_nodup season MIN_YEAR (extract html) [] (List.nodup_nil))

theorem searchLoop_nodup (oracle : String → Option String)
    (extract : String → List (String × String)) (season : String)
    (links : List (String × String)) (n : Nat) (G : List String)
    (h : (searchLoop oracle extract season links n).1 = some G) :
    G.Nodup := by
  induction links generalizing n with
  | nil => cases h
  | cons link rest ih =>
    rcases hm : matchAthleteHref link.1 with _ | idStr
    · simp only [searchLoop, hm] at h
      exact ih _ h
    · simp only [searchLoop, hm] at h
      rcases hr : (games_from_page oracle extract season idStr n).1
        with _ | gs
      · simp only [hr] at h
        exact ih _ h
      · simp only [hr, Option.some_inj] at h
        rw [← h]
        exact games_from_page_nodup oracle extract season idStr n gs hr

theorem search_nodup (oracle : String → Option String)
    (extract : String → List (String × String)) (season name : String)
    (n : Nat) (G : List String)
    (h : (search_and_find_season oracle extract season name n).1 = some G) :
    G.Nodup := by
  unfold search_and_find_season at h
  by_cases hp : splitTokens (replaceBullet name) = []
  · rw [if_pos hp] at h; cases h
  · rw [if_neg hp] at h
    rcases ho : oracle (BASE_URL ++ "/athletes/quick_search?query="
        ++ quotePlus (String.intercalate " " (splitTokens (replaceBullet name))))
      with _ | html
    · simp only [ho] at h
      cases h
    · simp only [ho] at h
      exact searchLoop_nodup oracle extract season (extract html) (n + 1) G h

theorem scrapeRes_nodup (oracle : String → Option String)
    (extract : String → List (String × String)) (season : String)
    (row : Row) (G : List String)
    (h : scrapeRes oracle extract season row = some G) : G.Nodup := by
  unfold scrapeRes scrapeRow at h
  by_cases ha : aidOf row = ""
  · simp only [ha, ne_eq, not_true_eq_false, ite_false] at h
    exact search_nodup oracle extract season (rowGet row "Used name") 0 G h
  · simp only [ha, ne_eq, not_false_eq_true, ite_true] at h
    exact games_from_page_nodup oracle extract season (aidOf row) 0 G h

/-! ### What the seeded cache holds at one athlete key -/

theorem cacheSeason_nil (a season : String) :
    cacheSeason [] a season = none := rfl

theorem entryGet_entrySet_winter (e : CacheEntry)
    (v : Option (List String)) :
    entryGet (entrySet e "Winter" v) "Winter" = v := by
  simp [entryGet, entrySet]

theorem summer_entrySet_winter (e : CacheEntry) (v : Option (List String)) :
    (entrySet e "Winter" v).summer = e.summer := by
  simp [entrySet]

theorem cacheSeason_congr (c c' : Cache) (a season : String)
    (h : cacheGet c' a = cacheGet c a) :
    cacheSeason c' a season = cacheSeason c a season := by
  unfold cacheSeason
  rw [h]

/-- `_add(a, "Winter", G)` on a key that is fresh or already holds exactly
`sorted(G)` leaves the key at `{"Winter": sorted(G), "Summer": None}`. -/
theorem cacheGet_cacheAdd_target (c : Cache) (a : String) (G : List String)
    (hG : G.Nodup)
    (hc : cacheGet c a = none
      ∨ cacheGet c a = some ⟨some (sortStrs G), none⟩) :
    cacheGet (cacheAdd c a "Winter" G) a
      = some ⟨some (sortStrs G), none⟩ := by
  rcases hc with hc | hc
  · simp only [cacheAdd, hc, Option.isNone_none, if_true,
      cacheGet_cacheSet_self, Option.getD_some]
    have he : entryGet (⟨none, none⟩ : CacheEntry) "Winter" = none := rfl
    rw [he]
    rw [cacheGet_cacheSet_self]
    rfl
  · simp only [cacheAdd, hc, Option.isNone_some, Bool.false_eq_true,
      if_false, Option.getD_some]
    have he : entryGet (⟨some (sortStrs G), none⟩ : CacheEntry) "Winter"
        = some (sortStrs G) := rfl
    simp only [he]
    rw [cacheGet_cacheSet_self]
    rw [show entrySet ⟨some (sortStrs G), none⟩ "Winter"
        (some (sortedUnion (sortStrs G) G))
      = ⟨some (sortedUnion (sortStrs G) G), none⟩ from rfl]
    rw [sortedUnion_self G hG]

/-- Folding positive-results rows whose `a`-keyed rows all parse to the
same duplicate-free list `G` keeps the `a` entry in
`{absent, {"Winter": sorted(G), "Summer": None}}`. -/
theorem cacheGet_rowsFold_target (a : String) (G : List String)
    (hG : G.Nodup) (rows : List Row) (c : Cache)
    (hrows : ∀ w ∈ rows, aidOf w = a →
      parseGames (trimStr (rowGet w "Games")) = G)
    (hc : cacheGet c a = none
      ∨ cacheGet c a = some ⟨some (sortStrs G), none⟩) :
    cacheGet (rows.foldl (cacheRowStep "Winter") c) a = none
      ∨ cacheGet (rows.foldl (cacheRowStep "Winter") c) a
          = some ⟨some (sortStrs G), none⟩ := by
  induction rows generalizing c with
  | nil => exact hc
  | cons w rest ih =>
    simp only [List.foldl_cons]
    refine ih _ (fun x hx hxa => hrows x (List.mem_cons_of_mem _ hx) hxa) ?_
    simp only [cacheRowStep]
    by_cases hw : trimStr (rowGet w "athlete_id") = ""
    · rw [if_pos hw]
      exact hc
    · rw [if_neg hw]
      by_cases hwa : trimStr (rowGet w "athlete_id") = a
      · rw [hwa, hrows w (List.mem_cons_self _ _) hwa]
        exact Or.inr (cacheGet_cacheAdd_target c a G hG hc)
      · rw [cacheGet_cacheAdd_ne _ _ _ _ _ hwa]
        exact hc

theorem cacheSeason_cacheAdd_winter_isSome (c : Cache) (a : String)
    (G : List String) :
    (cacheSeason (cacheAdd c a "Winter" G) a "Winter").isSome = true := by
  simp only [cacheSeason, cacheAdd]
  rcases hsp : entryGet
      ((cacheGet (if (cacheGet c a).isNone = true then
        cacheSet c a ⟨none, none⟩ else c) a).getD ⟨none, none⟩) "Winter"
    with _ | ex
  · simp only [hsp]
    simp only [cacheGet_cacheSet_self, entryGet_entrySet_winter,
      Option.isSome_some]
  · simp only [hsp]
    simp only [cacheGet_cacheSet_self, entryGet_entrySet_winter,
      Option.isSome_some]

theorem cacheSeason_rowsFold_winter_mono (rows : List Row) (c : Cache)
    (a : String) (h : (cacheSeason c a "Winter").isSome = true) :
    (cacheSeason (rows.foldl (cacheRowStep "Winter") c) a
      "Winter").isSome = true := by
  induction rows generalizing c with
  | nil => exact h
  | cons w rest ih =>
    simp only [List.foldl_cons]
    refine ih _ ?_
    simp only [cacheRowStep]
    by_cases hw : trimStr (rowGet w "athlete_id") = ""
    · rw [if_pos hw]
      exact h
    · rw [if_neg hw]
      by_cases hwa : trimStr (rowGet w "athlete_id") = a
      · rw [hwa]
        exact cacheSeason_cacheAdd_winter_isSome c a _
      · rw [cacheSeason_congr c _ a "Winter"
          (cacheGet_cacheAdd_ne _ _ _ _ _ hwa)]
        exact h

theorem cacheSeason_rowsFold_winter_isSome_of_mem (rows : List Row)
    (c : Cache) (a : String) (w : Row) (hw : w ∈ rows)
    (hwa : trimStr (rowGet w "athlete_id") = a) (ha : a ≠ "") :
    (cacheSeason (rows.foldl (cacheRowStep "Winter") c) a
      "Winter").isSome = true := by
  obtain ⟨l1, l2, rfl⟩ := List.append_of_mem hw
  rw [List.foldl_append, List.foldl_cons]
  refine cacheSeason_rowsFold_winter_mono l2 _ a ?_
  simp only [cacheRowStep]
  rw [if_neg (hwa ▸ ha), hwa]
  exact cacheSeason_cacheAdd_winter_isSome _ a _

/-- Under the first run's on-disk state, the cache build is the Winter
fold of the two written Winter tables. -/
theorem build_runFS_eq (A E : List Row) :
    build_output_cache (runFS A E)
      = E.foldl (cacheRowStep "Winter")
          (A.foldl (cacheRowStep "Winter") []) := by
  have h1 : runFS A E WINTER_DIR "all-states.csv" = some A := by
    simp [runFS]
  have h2 : runFS A E WINTER_DIR "us-born-elsewhere.csv" = some E := by
    simp [runFS]
  have h3 : ∀ f, runFS A E SUMMER_DIR f = none := by
    intro f
    simp [runFS, SUMMER_DIR, WINTER_DIR]
  simp only [build_output_cache, cacheFileStep, h1, h2, h3]

/-! ### Per-athlete case analysis of the classifier tiers -/

theorem needsScrape_seen (seen : List String) (cache : Cache)
    (season : String) (r : Row) (h : aidOf r ∈ seen) :
    needsScrape seen cache season r = false := by
  simp [needsScrape, h]

theorem needsScrape_unseen_empty (seen : List String) (r : Row)
    (h : aidOf r ∉ seen) : needsScrape seen [] "Winter" r = true := by
  simp [needsScrape, h, cacheSeason_nil]

theorem needsScrape_false_of_isSome (seen : List String) (cache : Cache)
    (r : Row) (h : (cacheSeason cache (aidOf r) "Winter").isSome = true) :
    needsScrape seen cache "Winter" r = false := by
  rcases Option.isSome_iff_exists.mp h with ⟨v, hv⟩
  simp [needsScrape, hv]

theorem rowTotal_seen_congr (seen : List String) (lookup : Lookup)
    (cache cache' : Cache) (oracle : String → Option String)
    (extract : String → List (String × String))
    (sk : Option (Row → String)) (outF : List String) (r : Row)
    (h : aidOf r ∈ seen) :
    rowTotal seen lookup cache oracle extract "Winter" sk outF r
      = rowTotal seen lookup cache' oracle extract "Winter" sk outF r := by
  simp [rowTotal, phase1Row, needsScrape, h]

theorem rowTotal_unseen_none (seen : List String) (lookup : Lookup)
    (cache : Cache) (oracle : String → Option String)
    (extract : String → List (String × String))
    (sk : Option (Row → String)) (outF : List String) (r : Row)
    (h : aidOf r ∉ seen)
    (hc : cacheSeason cache (aidOf r) "Winter" = none) :
    rowTotal seen lookup cache oracle extract "Winter" sk outF r
      = phase2RowS oracle extract "Winter" sk outF r := by
  simp [rowTotal, phase1Row, needsScrape, h, hc]

theorem rowTotal_unseen_some (seen : List String) (lookup : Lookup)
    (cache : Cache) (oracle : String → Option String)
    (extract : String → List (String × String))
    (sk : Option (Row → String)) (outF : List String) (r : Row)
    (G : List String) (h : aidOf r ∉ seen)
    (hc : cacheSeason cache (aidOf r) "Winter" = some G) (hG : G ≠ []) :
    rowTotal seen lookup cache oracle extract "Winter" sk outF r
      = [(keyOf sk r, build_out_row r (joinSemi (sortStrs G)) outF)] := by
  simp [rowTotal, phase1Row, needsScrape, h, hc, hG]

theorem phase2RowS_of_some (oracle : String → Option String)
    (extract : String → List (String × String))
    (sk : Option (Row → String)) (outF : List String) (r : Row)
    (G : List String)
    (hres : scrapeRes oracle extract "Winter" r = some G) (hG : G ≠ []) :
    phase2RowS oracle extract "Winter" sk outF r
      = [(keyOf sk r, build_out_row r (joinSemi (sortStrs G)) outF)] := by
  simp [phase2RowS, hres, hG]

theorem phase2RowS_empty (oracle : String → Option String)
    (extract : String → List (String × String))
    (sk : Option (Row → String)) (outF : List String) (r : Row)
    (hres : scrapeRes oracle extract "Winter" r = none
      ∨ scrapeRes oracle extract "Winter" r = some []) :
    phase2RowS oracle extract "Winter" sk outF r = [] := by
  rcases hres with hres | hres <;> simp [phase2RowS, hres]

theorem phase2RowN_of_some (oracle : String → Option String)
    (extract : String → List (String × String)) (outF : List String)
    (r : Row) (G : List String)
    (hres : scrapeRes oracle extract "Winter" r = some G) :
    phase2RowN oracle extract "Winter" outF r = [] := by
  simp [phase2RowN, hres]

/-- Every `season_rows` entry an athlete contributes keeps that athlete's
(stripped) identifier. -/
theorem mem_rowTotal_aid (seen : List String) (lookup : Lookup)
    (cache : Cache) (oracle : String → Option String)
    (extract : String → List (String × String))
    (sk : Option (Row → String)) (outF : List String)
    (hIA : "athlete_id" ∈ outF) (r : Row) (p : String × Row)
    (hp : p ∈ rowTotal seen lookup cache oracle extract "Winter" sk outF r) :
    aidOf p.2 = aidOf r := by
  rcases List.mem_append.mp hp with hp | hp
  · simp only [phase1Row] at hp
    split at hp
    · split at hp
      · simp only [List.mem_singleton] at hp
        subst hp
        exact aidOf_build_out_row r _ outF hIA
      · cases hp
    · split at hp
      · split at hp
        · simp only [List.mem_singleton] at hp
          subst hp
          exact aidOf_build_out_row r _ outF hIA
        · cases hp
      · cases hp
  · split at hp
    · simp only [phase2RowS] at hp
      split at hp
      · cases hp
      · split at hp
        · simp only [List.mem_singleton] at hp
          subst hp
          exact aidOf_build_out_row r _ outF hIA
        · cases hp
    · cases hp

/-! ### Relating the seeded cache to the first run's athletes -/

/-- Every row of the written Winter tables (as re-read by the cache build)
stems from some athlete's classifier contribution, with its identifier and
its `Games` cell. -/
theorem written_row_source (seen : List String) (lookup : Lookup)
    (oracle : String → Option String)
    (extract : String → List (String × String)) (outF eOutF : List String)
    (states_list : List String) (athS athE : List Row)
    (hGA : "Games" ∈ outF) (hIA : "athlete_id" ∈ outF)
    (hGE : "Games" ∈ eOutF) (hIE : "athlete_id" ∈ eOutF) (w : Row)
    (hw : w ∈ (winterOut seen lookup [] oracle extract outF states_list athS
          athE).allSeason.map (projectRow outF)
      ∨ w ∈ (winterOut seen lookup [] oracle extract outF states_list athS
          athE).elsewhereOut.map (projectRow eOutF)) :
    ∃ r' ∈ athS ++ athE, aidOf r' = aidOf w ∧
      ∃ sk, ∃ p ∈ rowTotal seen lookup [] oracle extract "Winter" sk outF r',
        rowGet w "Games" = rowGet p.2 "Games" := by
  rcases hw with hw | hw
  · obtain ⟨y, hy, rfl⟩ := List.mem_map.mp hw
    obtain ⟨p, hp, hpy⟩ := mem_allSeason states_list
      (seasonRows seen lookup [] oracle extract (some born_state) outF athS)
      (seasonRows seen lookup [] oracle extract none outF athE)
      (noMatchRows seen lookup [] oracle extract (some born_state) outF athS
        ++ noMatchRows seen lookup [] oracle extract none outF athE) y hy
    obtain ⟨r', hr', hpr⟩ := List.mem_flatMap.mp
      ((seasonRows_perm seen lookup [] oracle extract (some born_state) outF
        athS).subset hp)
    refine ⟨r', List.mem_append_left _ hr', ?_, some born_state, p, hpr, ?_⟩
    · rw [aidOf_projectRow outF y hIA, ← hpy,
        mem_rowTotal_aid seen lookup [] oracle extract (some born_state)
          outF hIA r' p hpr]
    · rw [rowGet_projectRow outF y "Games" hGA, ← hpy]
  · obtain ⟨y, hy, rfl⟩ := List.mem_map.mp hw
    obtain ⟨p, hp, hpy⟩ := mem_elsewhereOut states_list
      (seasonRows seen lookup [] oracle extract (some born_state) outF athS)
      (seasonRows seen lookup [] oracle extract none outF athE)
      (noMatchRows seen lookup [] oracle extract (some born_state) outF athS
        ++ noMatchRows seen lookup [] oracle extract none outF athE) y hy
    obtain ⟨r', hr', hpr⟩ := List.mem_flatMap.mp
      ((seasonRows_perm seen lookup [] oracle extract none outF
        athE).subset hp)
    refine ⟨r', List.mem_append_right _ hr', ?_, none, p, hpr, ?_⟩
    · rw [aidOf_projectRow eOutF y hIE, ← hpy,
        mem_rowTotal_aid seen lookup [] oracle extract none outF hIA r' p
          hpr]
    · rw [rowGet_projectRow eOutF y "Games" hGE, ← hpy]

/-- For an unseen athlete of the run, the seeded cache's Winter value at
its identifier is either unseen or exactly the sorted scrape result, the
latter only when the scrape matched. -/
theorem cache2_dichot (seen : List String) (lookup : Lookup)
    (oracle : String → Option String)
    (extract : String → List (String × String)) (outF eOutF : List String)
    (states_list : List String) (athS athE : List Row)
    (hGA : "Games" ∈ outF) (hIA : "athlete_id" ∈ outF)
    (hGE : "Games" ∈ eOutF) (hIE : "athlete_id" ∈ eOutF)
    (hIds : ∀ r₁ ∈ athS ++ athE, ∀ r₂ ∈ athS ++ athE,
      aidOf r₁ = aidOf r₂ → aidOf r₁ ≠ "" → r₁ = r₂)
    (r : Row) (hr : r ∈ athS ++ athE) (hseen : aidOf r ∉ seen) :
    cacheSeason (winterCache2 seen lookup oracle extract outF eOutF
        states_list athS athE) (aidOf r) "Winter" = none
    ∨ ∃ G, scrapeRes oracle extract "Winter" r = some G ∧ G ≠ []
        ∧ cacheSeason (winterCache2 seen lookup oracle extract outF eOutF
            states_list athS athE) (aidOf r) "Winter"
          = some (sortStrs G) := by
  by_cases ha : aidOf r = ""
  · left
    rw [ha]
    unfold winterCache2
    rw [build_runFS_eq]
    unfold cacheSeason
    rw [cacheGet_rowsFold_ne _ _ _ _
        (fun x _ => (em (trimStr (rowGet x "athlete_id") = "")).imp id id),
      cacheGet_rowsFold_ne _ _ _ _
        (fun x _ => (em (trimStr (rowGet x "athlete_id") = "")).imp id id)]
    rfl
  · have hnomem : (scrapeRes oracle extract "Winter" r = none
        ∨ scrapeRes oracle extract "Winter" r = some []) →
        ∀ w, (w ∈ (winterOut seen lookup [] oracle extract outF states_list
              athS athE).allSeason.map (projectRow outF)
          ∨ w ∈ (winterOut seen lookup [] oracle extract outF states_list
              athS athE).elsewhereOut.map (projectRow eOutF)) →
        trimStr (rowGet w "athlete_id") = ""
          ∨ trimStr (rowGet w "athlete_id") ≠ aidOf r := by
      intro hres w hw
      by_cases hwa : aidOf w = aidOf r
      · exfalso
        obtain ⟨r', hr', har', sk, p, hpr, -⟩ := written_row_source seen
          lookup oracle extract outF eOutF states_list athS athE hGA hIA
          hGE hIE w hw
        have hrr : r' = r :=
          hIds r' hr' r hr (har'.trans hwa) (har'.trans hwa ▸ ha)
        subst hrr
        rw [rowTotal_unseen_none seen lookup [] oracle extract sk outF r'
            hseen (cacheSeason_nil _ _),
          phase2RowS_empty oracle extract sk outF r' hres] at hpr
        cases hpr
      · exact Or.inr hwa
    rcases hres : scrapeRes oracle extract "Winter" r with _ | G
    · left
      unfold winterCache2
      rw [build_runFS_eq]
      unfold cacheSeason
      rw [cacheGet_rowsFold_ne _ _ _ _
          (fun x hx => hnomem (Or.inl hres) x (Or.inr hx)),
        cacheGet_rowsFold_ne _ _ _ _
          (fun x hx => hnomem (Or.inl hres) x (Or.inl hx))]
      rfl
    · by_cases hG : G = []
      · left
        subst hG
        unfold winterCache2
        rw [build_runFS_eq]
        unfold cacheSeason
        rw [cacheGet_rowsFold_ne _ _ _ _
            (fun x hx => hnomem (Or.inr hres) x (Or.inr hx)),
          cacheGet_rowsFold_ne _ _ _ _
            (fun x hx => hnomem (Or.inr hres) x (Or.inl hx))]
        rfl
      · -- the matched case: every written row keyed by this athlete's id
        -- carries the Games cell `"; ".join(sorted(G))`
        have htok := scrapeRes_tok oracle extract r G hres
        have hnd : (sortStrs G).Nodup :=
          ((sortStrs_perm G).nodup_iff).mpr
            (scrapeRes_nodup oracle extract "Winter" r G hres)
        have hcell : ∀ w,
            (w ∈ (winterOut seen lookup [] oracle extract outF states_list
                athS athE).allSeason.map (projectRow outF)
              ∨ w ∈ (winterOut seen lookup [] oracle extract outF
                  states_list athS athE).elsewhereOut.map
                  (projectRow eOutF)) →
            aidOf w = aidOf r →
            parseGames (trimStr (rowGet w "Games")) = sortStrs G := by
          intro w hw hwa
          obtain ⟨r', hr', har', sk, p, hpr, hcellp⟩ := written_row_source
            seen lookup oracle extract outF eOutF states_list athS athE
            hGA hIA hGE hIE w hw
          have hrr : r' = r :=
            hIds r' hr' r hr (har'.trans hwa) (har'.trans hwa ▸ ha)
          subst hrr
          rw [rowTotal_unseen_none seen lookup [] oracle extract sk outF r'
              hseen (cacheSeason_nil _ _),
            phase2RowS_of_some oracle extract sk outF r' G hres hG] at hpr
          simp only [List.mem_singleton] at hpr
          subst hpr
          rw [hcellp]
          rw [rowGet_build_out_row_games]
          refine parseGames_joinSemi (sortStrs G) ?_ (sortStrs_ne_nil G hG)
          intro t ht
          exact htok.1 t ((mem_sortStrs t G).mp ht)
        have hinv := cacheGet_rowsFold_target (aidOf r) (sortStrs G) hnd
          ((winterOut seen lookup [] oracle extract outF states_list athS
            athE).elsewhereOut.map (projectRow eOutF))
          (((winterOut seen lookup [] oracle extract outF states_list athS
            athE).allSeason.map (projectRow outF)).foldl
            (cacheRowStep "Winter") [])
          (fun x hx hxa => hcell x (Or.inr hx) hxa)
          (cacheGet_rowsFold_target (aidOf r) (sortStrs G) hnd
            ((winterOut seen lookup [] oracle extract outF states_list athS
              athE).allSeason.map (projectRow outF)) []
            (fun x hx hxa => hcell x (Or.inl hx) hxa) (Or.inl rfl))
        rcases hinv with hnone | htgt
        · left
          unfold winterCache2
          rw [build_runFS_eq]
          unfold cacheSeason
          rw [hnone]
        · right
          refine ⟨G, rfl, hG, ?_⟩
          unfold winterCache2
          rw [build_runFS_eq]
          unfold cacheSeason
          rw [htgt]
          show entryGet ⟨some (sortStrs (sortStrs G)), none⟩ "Winter"
            = some (sortStrs G)
          rw [show entryGet (⟨some (sortStrs (sortStrs G)), none⟩ :
              CacheEntry) "Winter" = some (sortStrs (sortStrs G)) from rfl,
            sortStrs_idem]

/-! ### The second run row by row, and the written tables -/

/-- With the seeded cache, every athlete's total `season_rows`
contribution is the same as in the first (empty-cache) run. -/
theorem rowTotal_second_run (seen : List String) (lookup : Lookup)
    (oracle : String → Option String)
    (extract : String → List (String × String)) (outF eOutF : List String)
    (states_list : List String) (athS athE : List Row)
    (hGA : "Games" ∈ outF) (hIA : "athlete_id" ∈ outF)
    (hGE : "Games" ∈ eOutF) (hIE : "athlete_id" ∈ eOutF)
    (hIds : ∀ r₁ ∈ athS ++ athE, ∀ r₂ ∈ athS ++ athE,
      aidOf r₁ = aidOf r₂ → aidOf r₁ ≠ "" → r₁ = r₂)
    (r : Row) (hr : r ∈ athS ++ athE) (sk : Option (Row → String)) :
    rowTotal seen lookup (winterCache2 seen lookup oracle extract outF
        eOutF states_list athS athE) oracle extract "Winter" sk outF r
      = rowTotal seen lookup [] oracle extract "Winter" sk outF r := by
  by_cases hs : aidOf r ∈ seen
  · exact rowTotal_seen_congr seen lookup _ [] oracle extract sk outF r hs
  · rcases cache2_dichot seen lookup oracle extract outF eOutF states_list
      athS athE hGA hIA hGE hIE hIds r hr hs with hnone | ⟨G, hres, hG, hsome⟩
    · rw [rowTotal_unseen_none seen lookup _ oracle extract sk outF r hs
          hnone,
        rowTotal_unseen_none seen lookup [] oracle extract sk outF r hs
          (cacheSeason_nil _ _)]
    · rw [rowTotal_unseen_some seen lookup _ oracle extract sk outF r
          (sortStrs G) hs hsome (sortStrs_ne_nil G hG),
        rowTotal_unseen_none seen lookup [] oracle extract sk outF r hs
          (cacheSeason_nil _ _),
        phase2RowS_of_some oracle extract sk outF r G hres hG,
        sortStrs_idem]

/-- With the seeded cache, every athlete's `no_match_rows` contribution is
the same as in the first run. -/
theorem noMatchRow_second_run (seen : List String) (lookup : Lookup)
    (oracle : String → Option String)
    (extract : String → List (String × String)) (outF eOutF : List String)
    (states_list : List String) (athS athE : List Row)
    (hGA : "Games" ∈ outF) (hIA : "athlete_id" ∈ outF)
    (hGE : "Games" ∈ eOutF) (hIE : "athlete_id" ∈ eOutF)
    (hIds : ∀ r₁ ∈ athS ++ athE, ∀ r₂ ∈ athS ++ athE,
      aidOf r₁ = aidOf r₂ → aidOf r₁ ≠ "" → r₁ = r₂)
    (r : Row) (hr : r ∈ athS ++ athE) :
    (if needsScrape seen (winterCache2 seen lookup oracle extract outF
        eOutF states_list athS athE) "Winter" r then
      phase2RowN oracle extract "Winter" outF r else [])
      = (if needsScrape seen [] "Winter" r then
          phase2RowN oracle extract "Winter" outF r else []) := by
  by_cases hs : aidOf r ∈ seen
  · rw [needsScrape_seen seen _ "Winter" r hs,
      needsScrape_seen seen [] "Winter" r hs]
  · rw [needsScrape_unseen_empty seen r hs, if_pos rfl]
    rcases cache2_dichot seen lookup oracle extract outF eOutF states_list
      athS athE hGA hIA hGE hIE hIds r hr hs with hnone | ⟨G, hres, hG, hsome⟩
    · have h2 : needsScrape seen (winterCache2 seen lookup oracle extract
          outF eOutF states_list athS athE) "Winter" r = true := by
        simp [needsScrape, hs, hnone]
      rw [h2, if_pos rfl]
    · rw [needsScrape_false_of_isSome seen _ r (by rw [hsome]; rfl)]
      rw [if_neg (by simp), phase2RowN_of_some oracle extract outF r G hres]

/-- The `season_rows` of one category, second run vs. first run. -/
theorem seasonRows_second_run (seen : List String) (lookup : Lookup)
    (oracle : String → Option String)
    (extract : String → List (String × String)) (outF eOutF : List String)
    (states_list : List String) (athS athE : List Row)
    (hGA : "Games" ∈ outF) (hIA : "athlete_id" ∈ outF)
    (hGE : "Games" ∈ eOutF) (hIE : "athlete_id" ∈ eOutF)
    (hIds : ∀ r₁ ∈ athS ++ athE, ∀ r₂ ∈ athS ++ athE,
      aidOf r₁ = aidOf r₂ → aidOf r₁ ≠ "" → r₁ = r₂)
    (sk : Option (Row → String)) (ath : List Row)
    (hsub : ∀ r ∈ ath, r ∈ athS ++ athE) :
    (seasonRows seen lookup (winterCache2 seen lookup oracle extract outF
        eOutF states_list athS athE) oracle extract sk outF ath).Perm
      (seasonRows seen lookup [] oracle extract sk outF ath) := by
  refine ((seasonRows_perm seen lookup _ oracle extract sk outF
    ath).trans ?_).trans
    (seasonRows_perm seen lookup [] oracle extract sk outF ath).symm
  rw [flatMap_congr ath _ _ (fun r hrm => rowTotal_second_run seen lookup
    oracle extract outF eOutF states_list athS athE hGA hIA hGE hIE hIds r
    (hsub r hrm) sk)]

/-- The `no_match_rows` of one category, second run vs. first run. -/
theorem noMatchRows_second_run (seen : List String) (lookup : Lookup)
    (oracle : String → Option String)
    (extract : String → List (String × String)) (outF eOutF : List String)
    (states_list : List String) (athS athE : List Row)
    (hGA : "Games" ∈ outF) (hIA : "athlete_id" ∈ outF)
    (hGE : "Games" ∈ eOutF) (hIE : "athlete_id" ∈ eOutF)
    (hIds : ∀ r₁ ∈ athS ++ athE, ∀ r₂ ∈ athS ++ athE,
      aidOf r₁ = aidOf r₂ → aidOf r₁ ≠ "" → r₁ = r₂)
    (sk : Option (Row → String)) (ath : List Row)
    (hsub : ∀ r ∈ ath, r ∈ athS ++ athE) :
    noMatchRows seen lookup (winterCache2 seen lookup oracle extract outF
        eOutF states_list athS athE) oracle extract sk outF ath
      = noMatchRows seen lookup [] oracle extract sk outF ath := by
  rw [noMatchRows_eq, noMatchRows_eq]
  exact flatMap_congr ath _ _ (fun r hrm => noMatchRow_second_run seen
    lookup oracle extract outF eOutF states_list athS athE hGA hIA hGE hIE
    hIds r (hsub r hrm))

/-- `write_season_output` on permuted `season_rows`: the per-state counts
are identical, the all-states and elsewhere tables are permutations, the
no-match table is whatever is passed. -/
theorem write_season_output_perm (states_list : List String)
    (s₂ s₁ e₂ e₁ : List (String × Row)) (nm : List Row)
    (hs : s₂.Perm s₁) (he : e₂.Perm e₁) :
    (write_season_output states_list s₂ e₂ nm).countRows
        = (write_season_output states_list s₁ e₁ nm).countRows
      ∧ (write_season_output states_list s₂ e₂ nm).allSeason.Perm
        (write_season_output states_list s₁ e₁ nm).allSeason
      ∧ (write_season_output states_list s₂ e₂ nm).elsewhereOut.Perm
        (write_season_output states_list s₁ e₁ nm).elsewhereOut := by
  have hg : ∀ st, (groupGet (buildGroups s₂) st).Perm
      (groupGet (buildGroups s₁) st) := by
    intro st
    rw [groupGet_buildGroups, groupGet_buildGroups]
    exact (hs.filter _).map _
  refine ⟨?_, ?_, ?_⟩
  · simp only [write_season_output]
    rw [List.map_congr_left
      (fun st _ => by rw [(hg st).length_eq] : ∀ st ∈ sortStrs states_list,
        (st, (groupGet (buildGroups s₂) st).length)
          = (st, (groupGet (buildGroups s₁) st).length))]
  · simp only [write_season_output]
    exact flatten_map_perm (sortStrs states_list) _ _ (fun st _ => hg st)
  · simp only [write_season_output]
    exact he.map _

/-- C7 (amended): with the second run's output cache seeded from the
first run's written Winter tables, and assuming the written tables carry
the `Games` and `athlete_id` columns and distinct athlete records have
distinct non-empty stripped identifiers, the second run reproduces the
first run's Winter matched output up to row order: identical per-state
counts, the all-states and elsewhere tables as permutations (rows
resolved from the cache come out in first-loop order rather than
scrape-loop order), and an identical no-match table; and for every
athlete carrying a non-empty identifier that appeared in the first run's
matched output, the second run's classifier resolves it in the first
loop (`needs_scrape` is false), so no fetch happens for it.  The original
claim's literal "identical matched output" is refuted by
`claim_C7_counterexample`. -/
theorem claim_C7_seeded_second_run (seen : List String) (lookup : Lookup)
    (oracle : String → Option String)
    (extract : String → List (String × String)) (outF eOutF : List String)
    (states_list : List String) (athS athE : List Row)
    (hGA : "Games" ∈ outF) (hIA : "athlete_id" ∈ outF)
    (hGE : "Games" ∈ eOutF) (hIE : "athlete_id" ∈ eOutF)
    (hIds : ∀ r₁ ∈ athS ++ athE, ∀ r₂ ∈ athS ++ athE,
      aidOf r₁ = aidOf r₂ → aidOf r₁ ≠ "" → r₁ = r₂) :
    (winterOut seen lookup (winterCache2 seen lookup oracle extract outF
        eOutF states_list athS athE) oracle extract outF states_list athS
        athE).countRows
      = (winterOut seen lookup [] oracle extract outF states_list athS
          athE).countRows
    ∧ (winterOut seen lookup (winterCache2 seen lookup oracle extract outF
        eOutF states_list athS athE) oracle extract outF states_list athS
        athE).allSeason.Perm
      (winterOut seen lookup [] oracle extract outF states_list athS
        athE).allSeason
    ∧ (winterOut seen lookup (winterCache2 seen lookup oracle extract outF
        eOutF states_list athS athE) oracle extract outF states_list athS
        athE).elsewhereOut.Perm
      (winterOut seen lookup [] oracle extract outF states_list athS
        athE).elsewhereOut
    ∧ (winterOut seen lookup (winterCache2 seen lookup oracle extract outF
        eOutF states_list athS athE) oracle extract outF states_list athS
        athE).noMatch
      = (winterOut seen lookup [] oracle extract outF states_list athS
          athE).noMatch
    ∧ ∀ r ∈ athS ++ athE, aidOf r ≠ "" →
        (∃ w, (w ∈ (winterOut seen lookup [] oracle extract outF
              states_list athS athE).allSeason
            ∨ w ∈ (winterOut seen lookup [] oracle extract outF states_list
              athS athE).elsewhereOut)
          ∧ aidOf w = aidOf r) →
        needsScrape seen (winterCache2 seen lookup oracle extract outF
          eOutF states_list athS athE) "Winter" r = false := by
  have hsS := seasonRows_second_run seen lookup oracle extract outF eOutF
    states_list athS athE hGA hIA hGE hIE hIds (some born_state) athS
    (fun r h => List.mem_append_left _ h)
  have hsE := seasonRows_second_run seen lookup oracle extract outF eOutF
    states_list athS athE hGA hIA hGE hIE hIds none athE
    (fun r h => List.mem_append_right _ h)
  have hnmS := noMatchRows_second_run seen lookup oracle extract outF eOutF
    states_list athS athE hGA hIA hGE hIE hIds (some born_state) athS
    (fun r h => List.mem_append_left _ h)
  have hnmE := noMatchRows_second_run seen lookup oracle extract outF eOutF
    states_list athS athE hGA hIA hGE hIE hIds none athE
    (fun r h => List.mem_append_right _ h)
  have hcache : winterCache2 seen lookup oracle extract outF eOutF
      states_list athS athE
    = ((winterOut seen lookup [] oracle extract outF states_list athS
          athE).elsewhereOut.map (projectRow eOutF)).foldl
        (cacheRowStep "Winter")
        (((winterOut seen lookup [] oracle extract outF states_list athS
          athE).allSeason.map (projectRow outF)).foldl
          (cacheRowStep "Winter") []) := by
    unfold winterCache2
    exact build_runFS_eq _ _
  have hw := write_season_output_perm states_list _ _ _ _
    (noMatchRows seen lookup [] oracle extract (some born_state) outF athS
      ++ noMatchRows seen lookup [] oracle extract none outF athE) hsS hsE
  refine ⟨?_, ?_, ?_, ?_, ?_⟩
  · simp only [winterOut, hnmS, hnmE]
    exact hw.1
  · simp only [winterOut, hnmS, hnmE]
    exact hw.2.1
  · simp only [winterOut, hnmS, hnmE]
    exact hw.2.2
  · simp only [winterOut, hnmS, hnmE]
    rfl
  · rintro r hr ha ⟨w, hw', hwa⟩
    refine needsScrape_false_of_isSome seen _ r ?_
    rw [hcache]
    rcases hw' with hwA | hwE
    · refine cacheSeason_rowsFold_winter_mono _ _ _ ?_
      refine cacheSeason_rowsFold_winter_isSome_of_mem _ [] (aidOf r)
        (projectRow outF w) (List.mem_map_of_mem _ hwA) ?_ ha
      show aidOf (projectRow outF w) = aidOf r
      rw [aidOf_projectRow outF w hIA, hwa]
    · refine cacheSeason_rowsFold_winter_isSome_of_mem _ _ (aidOf r)
        (projectRow eOutF w) (List.mem_map_of_mem _ hwE) ?_ ha
      show aidOf (projectRow eOutF w) = aidOf r
      rw [aidOf_projectRow eOutF w hIE, hwa]

/-- C7: the original claim fails: at the two-athlete Montana fixture the
second (cache-seeded) run's all-states table is not identical to the
first run's — the cache-resolved athlete 9 now precedes the index-resolved
athlete 5 instead of following it. -/
theorem claim_C7_counterexample :
    out2C7.allSeason ≠ out1C7.allSeason := by decide

/-- C7 witness: the amended theorem applied to the Montana fixture. -/
theorem claim_C7_seeded_second_run_witness :
    (("Games" : String) ∈ ["athlete_id", "Games", "Born"]
      ∧ ("athlete_id" : String) ∈ ["athlete_id", "Games", "Born"]
      ∧ ("Games" : String) ∈ ["Games", "athlete_id"]
      ∧ ("athlete_id" : String) ∈ ["Games", "athlete_id"]
      ∧ ∀ r₁ ∈ [rowScrapedC7, rowKnownC7] ++ ([] : List Row),
          ∀ r₂ ∈ [rowScrapedC7, rowKnownC7] ++ ([] : List Row),
          aidOf r₁ = aidOf r₂ → aidOf r₁ ≠ "" → r₁ = r₂)
    ∧ ((winterOut ["5"] [("5", ["1928 Winter Olympics"])]
        (winterCache2 ["5"] [("5", ["1928 Winter Olympics"])] oracleC7
          extractC7 ["athlete_id", "Games", "Born"]
          ["Games", "athlete_id"] ["Montana"] [rowScrapedC7, rowKnownC7]
          []) oracleC7 extractC7 ["athlete_id", "Games", "Born"]
        ["Montana"] [rowScrapedC7, rowKnownC7] []).countRows
      = (winterOut ["5"] [("5", ["1928 Winter Olympics"])] [] oracleC7
          extractC7 ["athlete_id", "Games", "Born"] ["Montana"]
          [rowScrapedC7, rowKnownC7] []).countRows
    ∧ (winterOut ["5"] [("5", ["1928 Winter Olympics"])]
        (winterCache2 ["5"] [("5", ["1928 Winter Olympics"])] oracleC7
          extractC7 ["athlete_id", "Games", "Born"]
          ["Games", "athlete_id"] ["Montana"] [rowScrapedC7, rowKnownC7]
          []) oracleC7 extractC7 ["athlete_id", "Games", "Born"]
        ["Montana"] [rowScrapedC7, rowKnownC7] []).allSeason.Perm
      (winterOut ["5"] [("5", ["1928 Winter Olympics"])] [] oracleC7
        extractC7 ["athlete_id", "Games", "Born"] ["Montana"]
        [rowScrapedC7, rowKnownC7] []).allSeason
    ∧ (winterOut ["5"] [("5", ["1928 Winter Olympics"])]
        (winterCache2 ["5"] [("5", ["1928 Winter Olympics"])] oracleC7
          extractC7 ["athlete_id", "Games", "Born"]
          ["Games", "athlete_id"] ["Montana"] [rowScrapedC7, rowKnownC7]
          []) oracleC7 extractC7 ["athlete_id", "Games", "Born"]
        ["Montana"] [rowScrapedC7, rowKnownC7] []).elsewhereOut.Perm
      (winterOut ["5"] [("5", ["1928 Winter Olympics"])] [] oracleC7
        extractC7 ["athlete_id", "Games", "Born"] ["Montana"]
        [rowScrapedC7, rowKnownC7] []).elsewhereOut
    ∧ (winterOut ["5"] [("5", ["1928 Winter Olympics"])]
        (winterCache2 ["5"] [("5", ["1928 Winter Olympics"])] oracleC7
          extractC7 ["athlete_id", "Games", "Born"]
          ["Games", "athlete_id"] ["Montana"] [rowScrapedC7, rowKnownC7]
          []) oracleC7 extractC7 ["athlete_id", "Games", "Born"]
        ["Montana"] [rowScrapedC7, rowKnownC7] []).noMatch
      = (winterOut ["5"] [("5", ["1928 Winter Olympics"])] [] oracleC7
          extractC7 ["athlete_id", "Games", "Born"] ["Montana"]
          [rowScrapedC7, rowKnownC7] []).noMatch
    ∧ ∀ r ∈ [rowScrapedC7, rowKnownC7] ++ ([] : List Row), aidOf r ≠ "" →
        (∃ w, (w ∈ (winterOut ["5"] [("5", ["1928 Winter Olympics"])] []
              oracleC7 extractC7 ["athlete_id", "Games", "Born"]
              ["Montana"] [rowScrapedC7, rowKnownC7] []).allSeason
            ∨ w ∈ (winterOut ["5"] [("5", ["1928 Winter Olympics"])] []
              oracleC7 extractC7 ["athlete_id", "Games", "Born"]
              ["Montana"] [rowScrapedC7, rowKnownC7] []).elsewhereOut)
          ∧ aidOf w = aidOf r) →
        needsScrape ["5"]
          (winterCache2 ["5"] [("5", ["1928 Winter Olympics"])] oracleC7
            extractC7 ["athlete_id", "Games", "Born"]
            ["Games", "athlete_id"] ["Montana"] [rowScrapedC7, rowKnownC7]
            []) "Winter" r = false) :=
  ⟨⟨by decide, by decide, by decide, by decide, by decide⟩,
    claim_C7_seeded_second_run ["5"] [("5", ["1928 Winter Olympics"])]
      oracleC7 extractC7 ["athlete_id", "Games", "Born"]
      ["Games", "athlete_id"] ["Montana"] [rowScrapedC7, rowKnownC7] []
      (by decide) (by decide) (by decide) (by decide) (by decide)⟩

end Olymp
